import Mathlib

set_option maxHeartbeats 1000000

/-
Verification of the MedalliaLauncher survey-selection engine
(src/SurveyEngine.js) against its specification.

The engine is shallowly embedded as pure Lean functions:
* storage (localStorage / sessionStorage) is a pair of association lists from
  keys to stored strings; a stored string is either the JSON serialization of
  an item record (a value plus an optional expiry timestamp in milliseconds)
  or a non-empty string that is not valid JSON, on which JSON.parse throws;
* the random source (parseInt of Math.random() times 100, an integer in
  0..99) is an explicit stream of draws, indexed by a counter in the engine
  state, so that "a draw was consumed" is observable;
* numeric survey fields (priority, percentage, quarantine days) are modelled
  by their parseInt images: some n when parseInt yields the integer n, none
  when parseInt yields NaN;
* operations that can throw (JSON.parse on a corrupted record) live in
  Except Unit; operations that cannot throw are total functions;
* the events and logs fields of the engine state are a ghost trace of the
  emit and log call sites; delivery to the onEvent / logger callbacks
  discards the callback outcome, mirroring the try/catch at the call sites.
-/

namespace MedalliaLauncher

/-- Stored string under a storage key: either the JSON serialization of an
item record (field value, optional field expiry in epoch milliseconds), or a
non-empty string that is not valid JSON, on which JSON.parse throws. -/
inductive StoredStr where
  | item (value : String) (expiry : Option Int)
  | corrupt
deriving DecidableEq

/-- One key-value store (localStorage or sessionStorage); the first binding
for a key wins, so overwriting is consing. -/
abbrev Store := List (String × StoredStr)

/-- Storage.getItem: first binding for the key, if any. -/
def getItem (l : Store) (k : String) : Option StoredStr :=
  match l with
  | [] => none
  | (k', v) :: t => if k' = k then some v else getItem t k

/-- Storage.setItem: overwrite the binding for the key. -/
def setItem (l : Store) (k : String) (v : StoredStr) : Store :=
  (k, v) :: l

/-- Storage.removeItem: drop every binding for the key. -/
def removeItem (l : Store) (k : String) : Store :=
  l.filter (fun p => p.1 != k)

/-- The two storage tiers: durable localStorage and ephemeral
sessionStorage. -/
structure Storage where
  localS : Store
  sessionS : Store
deriving DecidableEq

/-- The event vocabulary of the engine, one constructor per emit call site in
src/SurveyEngine.js, with the payload fields the source attaches. -/
inductive Event where
  | missing_config (survey_id : String)
  | chosen (survey_id : String) (priority : Option Int)
  | none_chosen (candidates : List String)
  | quarantined (survey_id : String) (days : Int) (storage : String)
  | quarantined_block (survey_id : String)
  | quarantine_set_on_sample (survey_id : String) (days : Int)
  | included_by_sampling (survey_id : String) (percentage : Int)
  | excluded_quarantined_user_sampling (survey_id : String) (percentage : Int)
  | excluded_not_quarantined_event_sampling (survey_id : String) (percentage : Int)
deriving DecidableEq

/-- Survey definition as consumed by the engine. The numeric fields are
modelled by their parseInt images (none is NaN); survey_id is the field the
engine uses to build quarantine keys. -/
structure SurveyCfg where
  survey_id : String
  priority : Option Int
  percentage : Option Int
  quarantine : Option Int
deriving DecidableEq

/-- Engine environment: the configuration options of the SurveyEngine
constructor plus the random source. keyPfx embeds the quarantineKeyPrefix
option ("neb_" by default). rand n is the n-th value of
parseInt(Math.random() * 100), an integer in 0..99. The onEvent and logger
callbacks may throw (return Except.error); the engine catches this. -/
structure Env where
  userSampling : Bool
  keyPfx : String
  rand : Nat → Nat
  onEvent : Option (Event → Except Unit Unit)
  logger : Option (String → Except Unit Unit)

/-- Mutable engine-visible state: the two storage tiers, the random-draw
counter (how many draws have been consumed), and the ghost traces of emitted
events and log messages. -/
structure EngState where
  storage : Storage
  rng : Nat
  events : List Event
  logs : List String
deriving DecidableEq

/-- emit: invoke the onEvent callback if present; any error it throws is
caught and discarded (the try/catch in the source), so every branch continues
identically. The events field records the emission. -/
def emit (env : Env) (ev : Event) (s : EngState) : EngState :=
  match env.onEvent with
  | some f =>
    match f ev with
    | .ok _ => { s with events := s.events ++ [ev] }
    | .error _ => { s with events := s.events ++ [ev] }
  | none => { s with events := s.events ++ [ev] }

/-- log: invoke the logger callback if present; any error it throws is caught
and discarded. The logs field records the message. -/
def logMsg (env : Env) (m : String) (s : EngState) : EngState :=
  match env.logger with
  | some f =>
    match f m with
    | .ok _ => { s with logs := s.logs ++ [m] }
    | .error _ => { s with logs := s.logs ++ [m] }
  | none => { s with logs := s.logs ++ [m] }

/-- setWithExpiry: with truthy days (nonzero), serialize the value together
with expiry now + days * 86400000 ms (days * 24 * 60 * 60 * 1000) into
localStorage; otherwise serialize the value without expiry into
sessionStorage. -/
def setWithExpiry (st : Storage) (key value : String) (days : Int) (now : Int) : Storage :=
  if days ≠ 0 then
    { st with localS := setItem st.localS key (.item value (some (now + days * 86400000))) }
  else
    { st with sessionS := setItem st.sessionS key (.item value none) }

/-- getWithExpiry: read localStorage first, falling back to sessionStorage;
absent key gives null; a corrupted record makes JSON.parse throw (error); a
record with a truthy (nonzero) expiry that is strictly in the past is removed
from localStorage and treated as absent; otherwise the stored value is
returned. Returns the read outcome together with the possibly-updated
storage. -/
def getWithExpiry (st : Storage) (key : String) (now : Int) :
    Except Unit (Option String) × Storage :=
  match (getItem st.localS key).orElse (fun _ => getItem st.sessionS key) with
  | none => (.ok none, st)
  | some .corrupt => (.error (), st)
  | some (.item v e) =>
    match e with
    | some ex =>
      if ex ≠ 0 ∧ now > ex then
        (.ok none, { st with localS := removeItem st.localS key })
      else (.ok (some v), st)
    | none => (.ok (some v), st)

/-- JavaScript truthiness of the value read back by getWithExpiry
(double-negation in the source): null and the empty string are falsy. -/
def jsTruthy (v : Option String) : Bool :=
  match v with
  | none => false
  | some str => str != ""

/-- passesStorageRules: the per-survey eligibility check. Looks up the
quarantine entry under keyPfx ++ survey_id; if truthy, emits
quarantined_block and returns false without drawing. Otherwise coerces
percentage (default 0 on NaN), consumes one random draw, and compares
draw ≤ percentage inclusively. On sampling in, writes a quarantine entry when
the quarantine field coerces to a positive integer, emits the corresponding
events and returns true. On exclusion, in user-sampling mode it writes the
same quarantine entry (when positive) and emits the user-sampling exclusion
event; otherwise it emits the event-sampling exclusion event; both return
false. A throwing storage read propagates as an error. -/
def passesStorageRules (env : Env) (survey : SurveyCfg) (now : Int) (s : EngState) :
    Except Unit (Bool × EngState) :=
  match getWithExpiry s.storage (env.keyPfx ++ survey.survey_id) now with
  | (.error _, _) => .error ()
  | (.ok v, st') =>
    if jsTruthy v then
      .ok (false,
        logMsg env (("SURVEY: survey ") ++ survey.survey_id ++ (" is quarantined"))
          (emit env (.quarantined_block survey.survey_id) { s with storage := st' }))
    else
      let percentage := survey.percentage.getD 0
      let draw : Nat := env.rand s.rng
      let s2 : EngState := { s with storage := st', rng := s.rng + 1 }
      if (draw : Int) ≤ percentage then
        let s3 : EngState :=
          match survey.quarantine with
          | some q =>
            if 0 < q then
              emit env (.quarantine_set_on_sample survey.survey_id q)
                { s2 with storage := setWithExpiry s2.storage (env.keyPfx ++ survey.survey_id) ("true") q now }
            else s2
          | none => s2
        .ok (true, emit env (.included_by_sampling survey.survey_id percentage) s3)
      else if env.userSampling then
        let s3 : EngState :=
          match survey.quarantine with
          | some q =>
            if 0 < q then
              { s2 with storage := setWithExpiry s2.storage (env.keyPfx ++ survey.survey_id) ("true") q now }
            else s2
          | none => s2
        .ok (false,
          logMsg env (("SURVEY: survey ") ++ survey.survey_id ++ (" is excluded by sampling, and quarantined (user sampling)"))
            (emit env (.excluded_quarantined_user_sampling survey.survey_id percentage) s3))
      else
        .ok (false,
          logMsg env (("SURVEY: survey ") ++ survey.survey_id ++ (" is excluded by sampling, and not quarantined (event sampling)"))
            (emit env (.excluded_not_quarantined_event_sampling survey.survey_id percentage) s2))

/-- Loop state of the selection loop in chooseSurvey: the running maximum
priority (sentinel -1), the current best candidate, and the engine state. -/
structure LoopState where
  maxPriority : Int
  chosen : Option SurveyCfg
  s : EngState
deriving DecidableEq

/-- One iteration of the chooseSurvey loop. An unresolved candidate emits
missing_config and is skipped. A resolved candidate is evaluated only when
its coerced priority strictly exceeds the running maximum (the && in the
source short-circuits): NaN priority or priority at or below the maximum is
skipped without any eligibility check. -/
def chooseStep (env : Env) (reg : String → Option SurveyCfg) (now : Int)
    (ls : LoopState) (cand : String) : Except Unit LoopState :=
  match reg cand with
  | none => .ok { ls with s := emit env (.missing_config cand) ls.s }
  | some cfg =>
    match cfg.priority with
    | some p =>
      if ls.maxPriority < p then
        match passesStorageRules env cfg now ls.s with
        | .error e => .error e
        | .ok (true, s') => .ok { maxPriority := p, chosen := some cfg, s := s' }
        | .ok (false, s') => .ok { ls with s := s' }
      else .ok ls
    | none => .ok ls

/-- The candidate loop of chooseSurvey. -/
def chooseLoop (env : Env) (reg : String → Option SurveyCfg) (now : Int) :
    List String → LoopState → Except Unit LoopState
  | [], ls => .ok ls
  | c :: rest, ls =>
    match chooseStep env reg now ls c with
    | .error e => .error e
    | .ok ls' => chooseLoop env reg now rest ls'

/-- chooseSurvey over the normalized candidate-id list: empty input returns
null with no event; otherwise run the loop and emit chosen or none_chosen. -/
def chooseSurvey (env : Env) (reg : String → Option SurveyCfg) (now : Int)
    (ids : List String) (s : EngState) : Except Unit (Option SurveyCfg × EngState) :=
  match ids with
  | [] => .ok (none, s)
  | _ :: _ =>
    match chooseLoop env reg now ids { maxPriority := -1, chosen := none, s := s } with
    | .error e => .error e
    | .ok ls =>
      match ls.chosen with
      | some cfg => .ok (some cfg, emit env (.chosen cfg.survey_id cfg.priority) ls.s)
      | none => .ok (none, emit env (.none_chosen ids) ls.s)

/-- quarantineSurvey: manual quarantine. days strictly positive (truthy and
greater than zero in the source) writes a durable entry and emits
survey_quarantined with storage local; otherwise a session entry is written
and the event reports days 0 and storage session. It performs no storage
read and cannot throw. -/
def quarantineSurvey (env : Env) (surveyId : String) (days : Int) (now : Int)
    (s : EngState) : EngState :=
  if 0 < days then
    emit env (.quarantined surveyId days ("local"))
      { s with storage := setWithExpiry s.storage (env.keyPfx ++ surveyId) ("true") days now }
  else
    emit env (.quarantined surveyId 0 ("session"))
      { s with storage := setWithExpiry s.storage (env.keyPfx ++ surveyId) ("true") 0 now }

/-- A quarantine entry for the key is present, unexpired and truthy: the
combined two-tier read yields a truthy value. -/
def quarantineActive (st : Storage) (key : String) (now : Int) : Bool :=
  match (getWithExpiry st key now).1 with
  | .ok v => jsTruthy v
  | .error _ => false

/-- All records in a store are parseable (no corrupted strings). -/
def storeOk (l : Store) : Bool :=
  l.all (fun p => p.2 != StoredStr.corrupt)

/-- Both storage tiers hold only parseable records. -/
def storageOk (st : Storage) : Bool :=
  storeOk st.localS && storeOk st.sessionS

deriving instance DecidableEq for Except

theorem str_append_cancel {p a b : String} (h : p ++ a = p ++ b) : a = b := by
  have h2 := congrArg String.data h
  simp [String.data_append] at h2
  exact String.ext h2

theorem getItem_setItem (l : Store) (k k' : String) (v : StoredStr) :
    getItem (setItem l k v) k' = if k = k' then some v else getItem l k' := by
  simp [setItem, getItem]

theorem getItem_removeItem (l : Store) (k k' : String) :
    getItem (removeItem l k) k' = if k = k' then none else getItem l k' := by
  induction l with
  | nil => simp [removeItem, getItem]
  | cons a t ih =>
    rcases a with ⟨ka, va⟩
    by_cases hka : ka = k
    · subst hka
      by_cases hkk : ka = k'
      · subst hkk
        simp [removeItem, getItem] at ih ⊢
        simpa using ih
      · simp [removeItem, getItem, hkk] at ih ⊢
        simpa [hkk] using ih
    · simp [removeItem, getItem, hka] at ih ⊢
      by_cases hkk : ka = k'
      · subst hkk
        simp [hka]
        intro h; exact absurd h.symm hka
      · simp [hkk]
        exact ih

theorem emit_eval (env : Env) (ev : Event) (s : EngState) :
    emit env ev s = { s with events := s.events ++ [ev] } := by
  unfold emit
  cases h : env.onEvent with
  | none => rfl
  | some f => cases h2 : f ev <;> simp only [h2]

theorem logMsg_eval (env : Env) (m : String) (s : EngState) :
    logMsg env m s = { s with logs := s.logs ++ [m] } := by
  unfold logMsg
  cases h : env.logger with
  | none => rfl
  | some f => cases h2 : f m <;> simp only [h2]

theorem getWithExpiry_of_none {st : Storage} {k : String} (now : Int)
    (hl : getItem st.localS k = none) (hs : getItem st.sessionS k = none) :
    getWithExpiry st k now = (.ok none, st) := by
  unfold getWithExpiry
  rw [hl, hs]
  rfl

theorem getWithExpiry_local_corrupt {st : Storage} {k : String} (now : Int)
    (hl : getItem st.localS k = some .corrupt) :
    getWithExpiry st k now = (.error (), st) := by
  unfold getWithExpiry
  rw [hl]
  rfl

theorem getWithExpiry_session_corrupt {st : Storage} {k : String} (now : Int)
    (hl : getItem st.localS k = none) (hs : getItem st.sessionS k = some .corrupt) :
    getWithExpiry st k now = (.error (), st) := by
  unfold getWithExpiry
  rw [hl, hs]
  rfl

theorem getWithExpiry_local_noexp {st : Storage} {k v : String} (now : Int)
    (hl : getItem st.localS k = some (.item v none)) :
    getWithExpiry st k now = (.ok (some v), st) := by
  unfold getWithExpiry
  rw [hl]
  rfl

theorem getWithExpiry_session_noexp {st : Storage} {k v : String} (now : Int)
    (hl : getItem st.localS k = none) (hs : getItem st.sessionS k = some (.item v none)) :
    getWithExpiry st k now = (.ok (some v), st) := by
  unfold getWithExpiry
  rw [hl, hs]
  rfl

theorem getWithExpiry_local_expired {st : Storage} {k v : String} {ex : Int} (now : Int)
    (hl : getItem st.localS k = some (.item v (some ex)))
    (hex : ex ≠ 0 ∧ now > ex) :
    getWithExpiry st k now = (.ok none, { st with localS := removeItem st.localS k }) := by
  unfold getWithExpiry
  rw [hl]
  show (if ex ≠ 0 ∧ now > ex then ((Except.ok none : Except Unit (Option String)), { st with localS := removeItem st.localS k }) else (.ok (some v), st)) = _
  rw [if_pos hex]

theorem getWithExpiry_local_live {st : Storage} {k v : String} {ex : Int} (now : Int)
    (hl : getItem st.localS k = some (.item v (some ex)))
    (hex : ¬ (ex ≠ 0 ∧ now > ex)) :
    getWithExpiry st k now = (.ok (some v), st) := by
  unfold getWithExpiry
  rw [hl]
  show (if ex ≠ 0 ∧ now > ex then ((Except.ok none : Except Unit (Option String)), { st with localS := removeItem st.localS k }) else (.ok (some v), st)) = _
  rw [if_neg hex]

theorem getWithExpiry_session_expired {st : Storage} {k v : String} {ex : Int} (now : Int)
    (hl : getItem st.localS k = none)
    (hs : getItem st.sessionS k = some (.item v (some ex)))
    (hex : ex ≠ 0 ∧ now > ex) :
    getWithExpiry st k now = (.ok none, { st with localS := removeItem st.localS k }) := by
  unfold getWithExpiry
  rw [hl, hs]
  show (if ex ≠ 0 ∧ now > ex then ((Except.ok none : Except Unit (Option String)), { st with localS := removeItem st.localS k }) else (.ok (some v), st)) = _
  rw [if_pos hex]

theorem getWithExpiry_session_live {st : Storage} {k v : String} {ex : Int} (now : Int)
    (hl : getItem st.localS k = none)
    (hs : getItem st.sessionS k = some (.item v (some ex)))
    (hex : ¬ (ex ≠ 0 ∧ now > ex)) :
    getWithExpiry st k now = (.ok (some v), st) := by
  unfold getWithExpiry
  rw [hl, hs]
  show (if ex ≠ 0 ∧ now > ex then ((Except.ok none : Except Unit (Option String)), { st with localS := removeItem st.localS k }) else (.ok (some v), st)) = _
  rw [if_neg hex]

theorem getWithExpiry_cases (st : Storage) (k : String) (now : Int) :
    getWithExpiry st k now = (.ok none, st) ∨
    getWithExpiry st k now = (.error (), st) ∨
    (∃ v, getWithExpiry st k now = (.ok (some v), st)) ∨
    getWithExpiry st k now = (.ok none, { st with localS := removeItem st.localS k }) := by
  rcases hl : getItem st.localS k with _ | w
  · rcases hs : getItem st.sessionS k with _ | w
    · exact .inl (getWithExpiry_of_none now hl hs)
    · rcases w with ⟨v, e⟩ | _
      · rcases e with _ | ex
        · exact .inr (.inr (.inl ⟨v, getWithExpiry_session_noexp now hl hs⟩))
        · by_cases hex : ex ≠ 0 ∧ now > ex
          · exact .inr (.inr (.inr (getWithExpiry_session_expired now hl hs hex)))
          · exact .inr (.inr (.inl ⟨v, getWithExpiry_session_live now hl hs hex⟩))
      · exact .inr (.inl (getWithExpiry_session_corrupt now hl hs))
  · rcases w with ⟨v, e⟩ | _
    · rcases e with _ | ex
      · exact .inr (.inr (.inl ⟨v, getWithExpiry_local_noexp now hl⟩))
      · by_cases hex : ex ≠ 0 ∧ now > ex
        · exact .inr (.inr (.inr (getWithExpiry_local_expired now hl hex)))
        · exact .inr (.inr (.inl ⟨v, getWithExpiry_local_live now hl hex⟩))
    · exact .inr (.inl (getWithExpiry_local_corrupt now hl))

theorem getWithExpiry_some_snd {st : Storage} {k : String} {now : Int} {v : String}
    (h : (getWithExpiry st k now).1 = .ok (some v)) :
    (getWithExpiry st k now).2 = st := by
  rcases getWithExpiry_cases st k now with h2 | h2 | ⟨w, h2⟩ | h2
  · rw [h2] at h; simp at h
  · rw [h2] at h; simp at h
  · rw [h2]
  · rw [h2] at h; simp at h

theorem quarantineActive_elim {st : Storage} {k : String} {now : Int}
    (h : quarantineActive st k now = true) :
    ∃ v, getWithExpiry st k now = (.ok (some v), st) ∧ (v != "") = true := by
  unfold quarantineActive at h
  rcases getWithExpiry_cases st k now with h2 | h2 | ⟨w, h2⟩ | h2 <;> rw [h2] at h
  · simp [jsTruthy] at h
  · simp at h
  · exact ⟨w, h2, by simpa [jsTruthy] using h⟩
  · simp [jsTruthy] at h

theorem quarantineActive_congr (st' st : Storage) (k : String) (now : Int)
    (hl : getItem st'.localS k = getItem st.localS k)
    (hs : getItem st'.sessionS k = getItem st.sessionS k) :
    quarantineActive st' k now = quarantineActive st k now := by
  unfold quarantineActive
  rcases hl2 : getItem st.localS k with _ | w
  · rcases hs2 : getItem st.sessionS k with _ | w
    · rw [getWithExpiry_of_none now hl2 hs2,
        getWithExpiry_of_none now (hl.trans hl2) (hs.trans hs2)]
    · rcases w with ⟨v, e⟩ | _
      · rcases e with _ | ex
        · rw [getWithExpiry_session_noexp now hl2 hs2,
            getWithExpiry_session_noexp now (hl.trans hl2) (hs.trans hs2)]
        · by_cases hex : ex ≠ 0 ∧ now > ex
          · rw [getWithExpiry_session_expired now hl2 hs2 hex,
              getWithExpiry_session_expired now (hl.trans hl2) (hs.trans hs2) hex]
          · rw [getWithExpiry_session_live now hl2 hs2 hex,
              getWithExpiry_session_live now (hl.trans hl2) (hs.trans hs2) hex]
      · rw [getWithExpiry_session_corrupt now hl2 hs2,
          getWithExpiry_session_corrupt now (hl.trans hl2) (hs.trans hs2)]
  · rcases w with ⟨v, e⟩ | _
    · rcases e with _ | ex
      · rw [getWithExpiry_local_noexp now hl2,
          getWithExpiry_local_noexp now (hl.trans hl2)]
      · by_cases hex : ex ≠ 0 ∧ now > ex
        · rw [getWithExpiry_local_expired now hl2 hex,
            getWithExpiry_local_expired now (hl.trans hl2) hex]
        · rw [getWithExpiry_local_live now hl2 hex,
            getWithExpiry_local_live now (hl.trans hl2) hex]
    · rw [getWithExpiry_local_corrupt now hl2,
        getWithExpiry_local_corrupt now (hl.trans hl2)]

theorem qa_after_get {st : Storage} {k : String} {now : Int} (k' : String)
    (h : quarantineActive st k now = true) :
    quarantineActive (getWithExpiry st k' now).2 k now = true := by
  by_cases hk : k' = k
  · subst hk
    rcases quarantineActive_elim h with ⟨v, hgv, _⟩
    rw [hgv]
    exact h
  · rcases getWithExpiry_cases st k' now with h2 | h2 | ⟨w, h2⟩ | h2 <;> rw [h2]
    · exact h
    · exact h
    · exact h
    · show quarantineActive { st with localS := removeItem st.localS k' } k now = true
      rw [quarantineActive_congr { st with localS := removeItem st.localS k' } st k now
        (by show getItem (removeItem st.localS k') k = getItem st.localS k
            rw [getItem_removeItem]; simp [hk]) rfl]
      exact h

theorem qa_after_set {st : Storage} {k : String} {now : Int} (k' : String) (d : Int)
    (hd : 0 < d) (h : quarantineActive st k now = true) :
    quarantineActive (setWithExpiry st k' ("true") d now) k now = true := by
  have hdz : d ≠ 0 := by omega
  by_cases hk : k' = k
  · subst hk
    unfold setWithExpiry
    rw [if_pos hdz]
    have hli : getItem (setItem st.localS k' (.item ("true") (some (now + d * 86400000)))) k' =
        some (.item ("true") (some (now + d * 86400000))) := by
      rw [getItem_setItem]; simp
    have hex : ¬ ((now + d * 86400000) ≠ 0 ∧ now > now + d * 86400000) := by
      rintro ⟨-, h2⟩
      omega
    unfold quarantineActive
    rw [getWithExpiry_local_live now hli hex]
    simp [jsTruthy]
  · unfold setWithExpiry
    rw [if_pos hdz]
    show quarantineActive { st with localS := setItem st.localS k' (.item ("true") (some (now + d * 86400000))) } k now = true
    rw [quarantineActive_congr { st with localS := setItem st.localS k' (.item ("true") (some (now + d * 86400000))) } st k now
      (by show getItem (setItem st.localS k' (.item ("true") (some (now + d * 86400000)))) k = getItem st.localS k
          rw [getItem_setItem]; simp [hk]) rfl]
    exact h

theorem psr_err {env : Env} {survey : SurveyCfg} {now : Int} {s : EngState} {st' : Storage}
    (hg : getWithExpiry s.storage (env.keyPfx ++ survey.survey_id) now = (.error (), st')) :
    passesStorageRules env survey now s = .error () := by
  unfold passesStorageRules
  rw [hg]

theorem psr_of_blocked {env : Env} {survey : SurveyCfg} {now : Int} {s : EngState}
    {v : String} {st' : Storage}
    (hg : getWithExpiry s.storage (env.keyPfx ++ survey.survey_id) now = (.ok (some v), st'))
    (hv : (v != "") = true) :
    passesStorageRules env survey now s =
      .ok (false,
        { s with
            storage := st',
            events := s.events ++ [.quarantined_block survey.survey_id],
            logs := s.logs ++ [("SURVEY: survey ") ++ survey.survey_id ++ (" is quarantined")] }) := by
  unfold passesStorageRules
  rw [hg]
  have hjt : jsTruthy (some v) = true := by simpa [jsTruthy] using hv
  simp [hjt, emit_eval, logMsg_eval]

theorem psr_sampled_nowrite {env : Env} {survey : SurveyCfg} {now : Int} {s : EngState}
    {st' : Storage} {v0 : Option String}
    (hg : getWithExpiry s.storage (env.keyPfx ++ survey.survey_id) now = (.ok v0, st'))
    (hv0 : jsTruthy v0 = false)
    (hle : ((env.rand s.rng : Nat) : Int) ≤ survey.percentage.getD 0)
    (hq : ∀ q, survey.quarantine = some q → ¬ 0 < q) :
    passesStorageRules env survey now s =
      .ok (true,
        { s with
            storage := st',
            rng := s.rng + 1,
            events := s.events ++ [.included_by_sampling survey.survey_id (survey.percentage.getD 0)] }) := by
  unfold passesStorageRules
  rw [hg]
  simp only [hv0, Bool.false_eq_true, if_false]
  rw [if_pos hle]
  rcases hqq : survey.quarantine with _ | q
  · simp [hqq, emit_eval]
  · simp [hqq, if_neg (hq q hqq), emit_eval]

theorem psr_sampled_write {env : Env} {survey : SurveyCfg} {now : Int} {s : EngState}
    {st' : Storage} {q : Int} {v0 : Option String}
    (hg : getWithExpiry s.storage (env.keyPfx ++ survey.survey_id) now = (.ok v0, st'))
    (hv0 : jsTruthy v0 = false)
    (hle : ((env.rand s.rng : Nat) : Int) ≤ survey.percentage.getD 0)
    (hqq : survey.quarantine = some q) (hq0 : 0 < q) :
    passesStorageRules env survey now s =
      .ok (true,
        { s with
            storage := setWithExpiry st' (env.keyPfx ++ survey.survey_id) ("true") q now,
            rng := s.rng + 1,
            events := s.events ++ [.quarantine_set_on_sample survey.survey_id q,
              .included_by_sampling survey.survey_id (survey.percentage.getD 0)] }) := by
  unfold passesStorageRules
  rw [hg]
  simp only [hv0, Bool.false_eq_true, if_false]
  rw [if_pos hle]
  simp [hqq, if_pos hq0, emit_eval]

theorem psr_excluded_user_write {env : Env} {survey : SurveyCfg} {now : Int} {s : EngState}
    {st' : Storage} {q : Int} {v0 : Option String}
    (hg : getWithExpiry s.storage (env.keyPfx ++ survey.survey_id) now = (.ok v0, st'))
    (hv0 : jsTruthy v0 = false)
    (hgt : ¬ ((env.rand s.rng : Nat) : Int) ≤ survey.percentage.getD 0)
    (hu : env.userSampling = true)
    (hqq : survey.quarantine = some q) (hq0 : 0 < q) :
    passesStorageRules env survey now s =
      .ok (false,
        { s with
            storage := setWithExpiry st' (env.keyPfx ++ survey.survey_id) ("true") q now,
            rng := s.rng + 1,
            events := s.events ++ [.excluded_quarantined_user_sampling survey.survey_id (survey.percentage.getD 0)],
            logs := s.logs ++ [("SURVEY: survey ") ++ survey.survey_id ++ (" is excluded by sampling, and quarantined (user sampling)")] }) := by
  unfold passesStorageRules
  rw [hg]
  simp only [hv0, Bool.false_eq_true, if_false]
  rw [if_neg hgt, hu]
  simp only [if_true]
  simp [hqq, if_pos hq0, emit_eval, logMsg_eval]

theorem psr_excluded_user_nowrite {env : Env} {survey : SurveyCfg} {now : Int} {s : EngState}
    {st' : Storage} {v0 : Option String}
    (hg : getWithExpiry s.storage (env.keyPfx ++ survey.survey_id) now = (.ok v0, st'))
    (hv0 : jsTruthy v0 = false)
    (hgt : ¬ ((env.rand s.rng : Nat) : Int) ≤ survey.percentage.getD 0)
    (hu : env.userSampling = true)
    (hq : ∀ q, survey.quarantine = some q → ¬ 0 < q) :
    passesStorageRules env survey now s =
      .ok (false,
        { s with
            storage := st',
            rng := s.rng + 1,
            events := s.events ++ [.excluded_quarantined_user_sampling survey.survey_id (survey.percentage.getD 0)],
            logs := s.logs ++ [("SURVEY: survey ") ++ survey.survey_id ++ (" is excluded by sampling, and quarantined (user sampling)")] }) := by
  unfold passesStorageRules
  rw [hg]
  simp only [hv0, Bool.false_eq_true, if_false]
  rw [if_neg hgt, hu]
  simp only [if_true]
  rcases hqq : survey.quarantine with _ | q
  · simp [hqq, emit_eval, logMsg_eval]
  · simp [hqq, if_neg (hq q hqq), emit_eval, logMsg_eval]

theorem psr_excluded_event {env : Env} {survey : SurveyCfg} {now : Int} {s : EngState}
    {st' : Storage} {v0 : Option String}
    (hg : getWithExpiry s.storage (env.keyPfx ++ survey.survey_id) now = (.ok v0, st'))
    (hv0 : jsTruthy v0 = false)
    (hgt : ¬ ((env.rand s.rng : Nat) : Int) ≤ survey.percentage.getD 0)
    (hu : env.userSampling = false) :
    passesStorageRules env survey now s =
      .ok (false,
        { s with
            storage := st',
            rng := s.rng + 1,
            events := s.events ++ [.excluded_not_quarantined_event_sampling survey.survey_id (survey.percentage.getD 0)],
            logs := s.logs ++ [("SURVEY: survey ") ++ survey.survey_id ++ (" is excluded by sampling, and not quarantined (event sampling)")] }) := by
  unfold passesStorageRules
  rw [hg]
  simp only [hv0, Bool.false_eq_true, if_false]
  rw [if_neg hgt, hu]
  simp [emit_eval, logMsg_eval]

theorem chooseStep_missing {env : Env} {reg : String → Option SurveyCfg} {now : Int}
    {ls : LoopState} {c : String} (hr : reg c = none) :
    chooseStep env reg now ls c = .ok { ls with s := emit env (.missing_config c) ls.s } := by
  unfold chooseStep
  rw [hr]

theorem chooseStep_skip_nan {env : Env} {reg : String → Option SurveyCfg} {now : Int}
    {ls : LoopState} {c : String} {cfg : SurveyCfg}
    (hr : reg c = some cfg) (hp : cfg.priority = none) :
    chooseStep env reg now ls c = .ok ls := by
  unfold chooseStep
  simp only [hr, hp]

theorem chooseStep_skip_low {env : Env} {reg : String → Option SurveyCfg} {now : Int}
    {ls : LoopState} {c : String} {cfg : SurveyCfg} {p : Int}
    (hr : reg c = some cfg) (hp : cfg.priority = some p) (hle : ¬ ls.maxPriority < p) :
    chooseStep env reg now ls c = .ok ls := by
  unfold chooseStep
  simp only [hr, hp]
  rw [if_neg hle]

theorem chooseStep_eval_pass {env : Env} {reg : String → Option SurveyCfg} {now : Int}
    {ls : LoopState} {c : String} {cfg : SurveyCfg} {p : Int} {s' : EngState}
    (hr : reg c = some cfg) (hp : cfg.priority = some p) (hlt : ls.maxPriority < p)
    (hps : passesStorageRules env cfg now ls.s = .ok (true, s')) :
    chooseStep env reg now ls c = .ok ⟨p, some cfg, s'⟩ := by
  unfold chooseStep
  simp only [hr, hp]
  rw [if_pos hlt, hps]

theorem chooseStep_eval_fail {env : Env} {reg : String → Option SurveyCfg} {now : Int}
    {ls : LoopState} {c : String} {cfg : SurveyCfg} {p : Int} {s' : EngState}
    (hr : reg c = some cfg) (hp : cfg.priority = some p) (hlt : ls.maxPriority < p)
    (hps : passesStorageRules env cfg now ls.s = .ok (false, s')) :
    chooseStep env reg now ls c = .ok { ls with s := s' } := by
  unfold chooseStep
  simp only [hr, hp]
  rw [if_pos hlt, hps]

theorem chooseStep_eval_err {env : Env} {reg : String → Option SurveyCfg} {now : Int}
    {ls : LoopState} {c : String} {cfg : SurveyCfg} {p : Int}
    (hr : reg c = some cfg) (hp : cfg.priority = some p) (hlt : ls.maxPriority < p)
    (hps : passesStorageRules env cfg now ls.s = .error ()) :
    chooseStep env reg now ls c = .error () := by
  unfold chooseStep
  simp only [hr, hp]
  rw [if_pos hlt, hps]

theorem chooseLoop_nil {env : Env} {reg : String → Option SurveyCfg} {now : Int}
    {ls : LoopState} : chooseLoop env reg now [] ls = .ok ls := rfl

theorem chooseLoop_cons_ok {env : Env} {reg : String → Option SurveyCfg} {now : Int}
    {ls ls1 : LoopState} {c : String} {rest : List String}
    (h : chooseStep env reg now ls c = .ok ls1) :
    chooseLoop env reg now (c :: rest) ls = chooseLoop env reg now rest ls1 := by
  conv_lhs => unfold chooseLoop
  rw [h]

theorem chooseLoop_cons_err {env : Env} {reg : String → Option SurveyCfg} {now : Int}
    {ls : LoopState} {c : String} {rest : List String}
    (h : chooseStep env reg now ls c = .error ()) :
    chooseLoop env reg now (c :: rest) ls = .error () := by
  conv_lhs => unfold chooseLoop
  rw [h]

theorem chooseSurvey_run_chosen {env : Env} {reg : String → Option SurveyCfg} {now : Int}
    {i0 : String} {tl : List String} {ls' : LoopState} {cfg : SurveyCfg} (s : EngState)
    (h : chooseLoop env reg now (i0 :: tl) ⟨-1, none, s⟩ = .ok ls')
    (hch : ls'.chosen = some cfg) :
    chooseSurvey env reg now (i0 :: tl) s =
      .ok (some cfg, emit env (.chosen cfg.survey_id cfg.priority) ls'.s) := by
  unfold chooseSurvey
  simp only [h, hch]

theorem chooseSurvey_run_none {env : Env} {reg : String → Option SurveyCfg} {now : Int}
    {i0 : String} {tl : List String} {ls' : LoopState} (s : EngState)
    (h : chooseLoop env reg now (i0 :: tl) ⟨-1, none, s⟩ = .ok ls')
    (hch : ls'.chosen = none) :
    chooseSurvey env reg now (i0 :: tl) s =
      .ok (none, emit env (.none_chosen (i0 :: tl)) ls'.s) := by
  unfold chooseSurvey
  simp only [h, hch]

theorem chooseSurvey_run_err {env : Env} {reg : String → Option SurveyCfg} {now : Int}
    {i0 : String} {tl : List String} (s : EngState)
    (h : chooseLoop env reg now (i0 :: tl) ⟨-1, none, s⟩ = .error ()) :
    chooseSurvey env reg now (i0 :: tl) s = .error () := by
  unfold chooseSurvey
  simp only [h]

theorem psr_qa_sampling {env : Env} {survey : SurveyCfg} {now : Int} {s : EngState}
    {st' : Storage} {k : String} {b : Bool} {s2 : EngState} {v0 : Option String}
    (hg : getWithExpiry s.storage (env.keyPfx ++ survey.survey_id) now = (.ok v0, st'))
    (hv0 : jsTruthy v0 = false)
    (hqa : quarantineActive st' k now = true)
    (hps : passesStorageRules env survey now s = .ok (b, s2)) :
    quarantineActive s2.storage k now = true := by
  by_cases hle : ((env.rand s.rng : Nat) : Int) ≤ survey.percentage.getD 0
  · rcases hqq : survey.quarantine with _ | q
    · rw [psr_sampled_nowrite hg hv0 hle (fun q hq => by rw [hqq] at hq; cases hq)] at hps
      simp only [Except.ok.injEq, Prod.mk.injEq] at hps
      rw [← hps.2]
      exact hqa
    · by_cases hq0 : 0 < q
      · rw [psr_sampled_write hg hv0 hle hqq hq0] at hps
        simp only [Except.ok.injEq, Prod.mk.injEq] at hps
        rw [← hps.2]
        exact qa_after_set (env.keyPfx ++ survey.survey_id) q hq0 hqa
      · rw [psr_sampled_nowrite hg hv0 hle
          (fun q' hq' => by rw [hqq] at hq'; injection hq' with h2; rw [← h2]; exact hq0)] at hps
        simp only [Except.ok.injEq, Prod.mk.injEq] at hps
        rw [← hps.2]
        exact hqa
  · rcases hu : env.userSampling with _ | _
    · rw [psr_excluded_event hg hv0 hle hu] at hps
      simp only [Except.ok.injEq, Prod.mk.injEq] at hps
      rw [← hps.2]
      exact hqa
    · rcases hqq : survey.quarantine with _ | q
      · rw [psr_excluded_user_nowrite hg hv0 hle hu (fun q hq => by rw [hqq] at hq; cases hq)] at hps
        simp only [Except.ok.injEq, Prod.mk.injEq] at hps
        rw [← hps.2]
        exact hqa
      · by_cases hq0 : 0 < q
        · rw [psr_excluded_user_write hg hv0 hle hu hqq hq0] at hps
          simp only [Except.ok.injEq, Prod.mk.injEq] at hps
          rw [← hps.2]
          exact qa_after_set (env.keyPfx ++ survey.survey_id) q hq0 hqa
        · rw [psr_excluded_user_nowrite hg hv0 hle hu
            (fun q' hq' => by rw [hqq] at hq'; injection hq' with h2; rw [← h2]; exact hq0)] at hps
          simp only [Except.ok.injEq, Prod.mk.injEq] at hps
          rw [← hps.2]
          exact hqa

theorem psr_qa_invariant {env : Env} {survey : SurveyCfg} {now : Int} {s : EngState}
    {k : String} {b : Bool} {s' : EngState}
    (hqa : quarantineActive s.storage k now = true)
    (hps : passesStorageRules env survey now s = .ok (b, s')) :
    quarantineActive s'.storage k now = true ∧
      (env.keyPfx ++ survey.survey_id = k → b = false) := by
  by_cases hk : env.keyPfx ++ survey.survey_id = k
  · subst hk
    rcases quarantineActive_elim hqa with ⟨v, hgv, hv⟩
    rw [psr_of_blocked hgv hv] at hps
    simp only [Except.ok.injEq, Prod.mk.injEq] at hps
    refine ⟨?_, fun _ => hps.1.symm⟩
    rw [← hps.2]
    exact hqa
  · rcases getWithExpiry_cases s.storage (env.keyPfx ++ survey.survey_id) now with
      h2 | h2 | ⟨w, h2⟩ | h2
    · refine ⟨psr_qa_sampling h2 rfl hqa hps, fun hcon => absurd hcon hk⟩
    · rw [psr_err h2] at hps
      cases hps
    · by_cases hw : (w != "") = true
      · rw [psr_of_blocked h2 hw] at hps
        simp only [Except.ok.injEq, Prod.mk.injEq] at hps
        refine ⟨?_, fun hcon => absurd hcon hk⟩
        rw [← hps.2]
        exact hqa
      · have hw2 : w = "" := by
          rcases eq_or_ne w ("") with h3 | h3
          · exact h3
          · exact absurd (by simpa using h3) hw
        subst hw2
        exact ⟨psr_qa_sampling h2 rfl hqa hps, fun hcon => absurd hcon hk⟩
    · have hq2 : quarantineActive { s.storage with localS := removeItem s.storage.localS (env.keyPfx ++ survey.survey_id) } k now = true := by
        have h3 := qa_after_get (env.keyPfx ++ survey.survey_id) hqa
        rw [h2] at h3
        exact h3
      exact ⟨psr_qa_sampling h2 rfl hq2 hps, fun hcon => absurd hcon hk⟩

theorem chooseStep_qa {env : Env} {reg : String → Option SurveyCfg} {now : Int}
    {k : String} {ls ls1 : LoopState} {c : String}
    (h1 : quarantineActive ls.s.storage k now = true)
    (h2 : ∀ cfg, ls.chosen = some cfg → env.keyPfx ++ cfg.survey_id ≠ k)
    (hst : chooseStep env reg now ls c = .ok ls1) :
    quarantineActive ls1.s.storage k now = true ∧
      ∀ cfg, ls1.chosen = some cfg → env.keyPfx ++ cfg.survey_id ≠ k := by
  rcases hr : reg c with _ | cfg
  · rw [chooseStep_missing hr] at hst
    injection hst with h3
    rw [← h3]
    rw [emit_eval]
    exact ⟨h1, h2⟩
  · rcases hp : cfg.priority with _ | p
    · rw [chooseStep_skip_nan hr hp] at hst
      injection hst with h3
      rw [← h3]
      exact ⟨h1, h2⟩
    · by_cases hlt : ls.maxPriority < p
      · rcases hps : passesStorageRules env cfg now ls.s with e | bs
        · cases e
          rw [chooseStep_eval_err hr hp hlt hps] at hst
          cases hst
        · rcases bs with ⟨b, s'⟩
          have hqi := psr_qa_invariant h1 hps
          rcases b
          · rw [chooseStep_eval_fail hr hp hlt hps] at hst
            injection hst with h3
            rw [← h3]
            exact ⟨hqi.1, h2⟩
          · rw [chooseStep_eval_pass hr hp hlt hps] at hst
            injection hst with h3
            rw [← h3]
            refine ⟨hqi.1, ?_⟩
            intro cfg2 hcfg2
            injection hcfg2 with h4
            rw [← h4]
            intro hcon
            have := hqi.2 hcon
            cases this
      · rw [chooseStep_skip_low hr hp hlt] at hst
        injection hst with h3
        rw [← h3]
        exact ⟨h1, h2⟩

theorem chooseLoop_qa {env : Env} {reg : String → Option SurveyCfg} {now : Int}
    {k : String} :
    ∀ (ids : List String) (ls ls' : LoopState),
      quarantineActive ls.s.storage k now = true →
      (∀ cfg, ls.chosen = some cfg → env.keyPfx ++ cfg.survey_id ≠ k) →
      chooseLoop env reg now ids ls = .ok ls' →
      quarantineActive ls'.s.storage k now = true ∧
        ∀ cfg, ls'.chosen = some cfg → env.keyPfx ++ cfg.survey_id ≠ k := by
  intro ids
  induction ids with
  | nil =>
    intro ls ls' h1 h2 h3
    rw [chooseLoop_nil] at h3
    injection h3 with h4
    rw [← h4]
    exact ⟨h1, h2⟩
  | cons c rest ih =>
    intro ls ls' h1 h2 h3
    rcases hst : chooseStep env reg now ls c with e | ls1
    · cases e
      rw [chooseLoop_cons_err hst] at h3
      cases h3
    · rw [chooseLoop_cons_ok hst] at h3
      rcases chooseStep_qa h1 h2 hst with ⟨h4, h5⟩
      exact ih ls1 ls' h4 h5 h3

/-- Claim C3: for every survey whose quarantine entry is present, truthy and
unexpired at the time of the eligibility check, passesStorageRules returns
false having emitted survey_quarantined_block, with storage and the random
counter unchanged (no draw is consumed, nothing is written), and no run of
chooseSurvey started from that state ever returns a survey with that
survey_id, regardless of percentage. -/
theorem C3_quarantined_block_and_never_chosen
    (env : Env) (survey : SurveyCfg) (now : Int) (s : EngState)
    (hqa : quarantineActive s.storage (env.keyPfx ++ survey.survey_id) now = true) :
    passesStorageRules env survey now s =
      .ok (false,
        { s with
            events := s.events ++ [.quarantined_block survey.survey_id],
            logs := s.logs ++ [("SURVEY: survey ") ++ survey.survey_id ++ (" is quarantined")] }) ∧
    ∀ (reg : String → Option SurveyCfg) (ids : List String) (res : SurveyCfg) (s' : EngState),
      chooseSurvey env reg now ids s = .ok (some res, s') →
      res.survey_id ≠ survey.survey_id := by
  rcases quarantineActive_elim hqa with ⟨v, hgv, hv⟩
  constructor
  · exact psr_of_blocked hgv hv
  · intro reg ids res s' hcs
    rcases ids with _ | ⟨i0, tl⟩
    · unfold chooseSurvey at hcs
      cases hcs
    · rcases hlp : chooseLoop env reg now (i0 :: tl) ⟨-1, none, s⟩ with e | ls'
      · cases e
        rw [chooseSurvey_run_err s hlp] at hcs
        cases hcs
      · rcases hch : ls'.chosen with _ | cfg
        · rw [chooseSurvey_run_none s hlp hch] at hcs
          simp at hcs
        · rw [chooseSurvey_run_chosen s hlp hch] at hcs
          simp only [Except.ok.injEq, Prod.mk.injEq, Option.some.injEq] at hcs
          have hinv := chooseLoop_qa (i0 :: tl) ⟨-1, none, s⟩ ls' hqa
            (fun cfg2 hcon => by cases hcon) hlp
          have hkne := hinv.2 cfg hch
          intro hcon
          apply hkne
          rw [hcs.1, hcon]

theorem setWithExpiry_pos {st : Storage} {k value : String} {d now : Int} (hd : d ≠ 0) :
    setWithExpiry st k value d now =
      { st with localS := setItem st.localS k (.item value (some (now + d * 86400000))) } := by
  unfold setWithExpiry
  rw [if_pos hd]

theorem setWithExpiry_zero {st : Storage} {k value : String} {now : Int} :
    setWithExpiry st k value 0 now =
      { st with sessionS := setItem st.sessionS k (.item value none) } := by
  unfold setWithExpiry
  rw [if_neg (by omega : ¬ (0 : Int) ≠ 0)]

/-- Witness for C3: a survey with a session quarantine entry present is
blocked at a concrete state. -/
theorem C3_witness :
    passesStorageRules ⟨false, ("neb_"), (fun _ => 0), none, none⟩
        ⟨("A"), some 1, some 100, none⟩ 0
        ⟨⟨[(("neb_A"), StoredStr.item ("true") none)], []⟩, 0, [], []⟩ =
      .ok (false,
        ⟨⟨[(("neb_A"), StoredStr.item ("true") none)], []⟩, 0,
          [.quarantined_block ("A")],
          [("SURVEY: survey ") ++ ("A") ++ (" is quarantined")]⟩) :=
  (C3_quarantined_block_and_never_chosen ⟨false, ("neb_"), (fun _ => 0), none, none⟩
      ⟨("A"), some 1, some 100, none⟩ 0
      ⟨⟨[(("neb_A"), StoredStr.item ("true") none)], []⟩, 0, [], []⟩ (by decide)).1

/-- Claim C4: with no quarantine entry readable for the survey, the check coerces
percentage with default 0 on NaN, consumes exactly one random draw, and
samples in exactly when draw ≤ threshold, inclusively; threshold 100 always
samples in (draws lie in 0..99) and threshold 0 samples in exactly on a draw
of 0. -/
theorem C4_sampling_inclusive_threshold
    (env : Env) (survey : SurveyCfg) (now : Int) (s : EngState) (st' : Storage)
    (hg : getWithExpiry s.storage (env.keyPfx ++ survey.survey_id) now = (.ok none, st'))
    (hr : env.rand s.rng ≤ 99) :
    (∃ s2, passesStorageRules env survey now s =
        .ok (decide (((env.rand s.rng : Nat) : Int) ≤ survey.percentage.getD 0), s2) ∧
        s2.rng = s.rng + 1) ∧
    (survey.percentage = some 100 →
      decide (((env.rand s.rng : Nat) : Int) ≤ survey.percentage.getD 0) = true) ∧
    (survey.percentage = some 0 →
      (decide (((env.rand s.rng : Nat) : Int) ≤ survey.percentage.getD 0) = true ↔
        env.rand s.rng = 0)) := by
  refine ⟨?_, ?_, ?_⟩
  · by_cases hle : ((env.rand s.rng : Nat) : Int) ≤ survey.percentage.getD 0
    · rw [decide_eq_true hle]
      rcases hqq : survey.quarantine with _ | q
      · exact ⟨_, psr_sampled_nowrite hg rfl hle (fun q hq => by rw [hqq] at hq; cases hq), rfl⟩
      · by_cases hq0 : 0 < q
        · exact ⟨_, psr_sampled_write hg rfl hle hqq hq0, rfl⟩
        · exact ⟨_, psr_sampled_nowrite hg rfl hle
            (fun q' hq' => by rw [hqq] at hq'; injection hq' with h2; rw [← h2]; exact hq0), rfl⟩
    · rw [decide_eq_false hle]
      rcases hu : env.userSampling with _ | _
      · exact ⟨_, psr_excluded_event hg rfl hle hu, rfl⟩
      · rcases hqq : survey.quarantine with _ | q
        · exact ⟨_, psr_excluded_user_nowrite hg rfl hle hu (fun q hq => by rw [hqq] at hq; cases hq), rfl⟩
        · by_cases hq0 : 0 < q
          · exact ⟨_, psr_excluded_user_write hg rfl hle hu hqq hq0, rfl⟩
          · exact ⟨_, psr_excluded_user_nowrite hg rfl hle hu
              (fun q' hq' => by rw [hqq] at hq'; injection hq' with h2; rw [← h2]; exact hq0), rfl⟩
  · intro h100
    simp only [h100, Option.getD_some, decide_eq_true_eq]
    omega
  · intro h0
    simp only [h0, Option.getD_some, decide_eq_true_eq]
    omega

/-- Witness for C4 at a concrete state: empty storage, draw 50, threshold 75. -/
theorem C4_witness :
    (∃ s2, passesStorageRules ⟨false, ("neb_"), (fun _ => 50), none, none⟩
        ⟨("A"), some 1, some 75, none⟩ 0 ⟨⟨[], []⟩, 0, [], []⟩ =
        .ok (decide ((((⟨false, ("neb_"), (fun _ => 50), none, none⟩ : Env).rand 0 : Nat) : Int) ≤
          (Option.getD (some 75) 0)), s2) ∧
        s2.rng = 0 + 1) ∧
    ((some 75 : Option Int) = some 100 →
      decide ((((⟨false, ("neb_"), (fun _ => 50), none, none⟩ : Env).rand 0 : Nat) : Int) ≤
        (Option.getD (some 75) 0)) = true) ∧
    ((some 75 : Option Int) = some 0 →
      (decide ((((⟨false, ("neb_"), (fun _ => 50), none, none⟩ : Env).rand 0 : Nat) : Int) ≤
        (Option.getD (some 75) 0)) = true ↔
        (⟨false, ("neb_"), (fun _ => 50), none, none⟩ : Env).rand 0 = 0)) :=
  C4_sampling_inclusive_threshold ⟨false, ("neb_"), (fun _ => 50), none, none⟩
    ⟨("A"), some 1, some 75, none⟩ 0 ⟨⟨[], []⟩, 0, [], []⟩ ⟨[], []⟩ (by decide) (by decide)

/-- Claim C6: a survey excluded by the draw is quarantined (durable entry under its
key) with the user-sampling exclusion event when userSampling is on and the
quarantine field coerces to a positive integer; with userSampling off nothing
is written and the event-sampling exclusion event is emitted; both return
eligible = false. -/
theorem C6_excluded_sampling_policy
    (env : Env) (survey : SurveyCfg) (now : Int) (s : EngState) (st' : Storage)
    (hg : getWithExpiry s.storage (env.keyPfx ++ survey.survey_id) now = (.ok none, st'))
    (hgt : ¬ ((env.rand s.rng : Nat) : Int) ≤ survey.percentage.getD 0) :
    (∀ q, env.userSampling = true → survey.quarantine = some q → 0 < q →
      passesStorageRules env survey now s =
        .ok (false,
          { s with
              storage := { st' with localS := setItem st'.localS (env.keyPfx ++ survey.survey_id) (.item ("true") (some (now + q * 86400000))) },
              rng := s.rng + 1,
              events := s.events ++ [.excluded_quarantined_user_sampling survey.survey_id (survey.percentage.getD 0)],
              logs := s.logs ++ [("SURVEY: survey ") ++ survey.survey_id ++ (" is excluded by sampling, and quarantined (user sampling)")] })) ∧
    (env.userSampling = false →
      passesStorageRules env survey now s =
        .ok (false,
          { s with
              storage := st',
              rng := s.rng + 1,
              events := s.events ++ [.excluded_not_quarantined_event_sampling survey.survey_id (survey.percentage.getD 0)],
              logs := s.logs ++ [("SURVEY: survey ") ++ survey.survey_id ++ (" is excluded by sampling, and not quarantined (event sampling)")] })) := by
  constructor
  · intro q hu hqq hq0
    rw [psr_excluded_user_write hg rfl hgt hu hqq hq0, setWithExpiry_pos (by omega)]
  · intro hu
    exact psr_excluded_event hg rfl hgt hu

/-- Witness for C6: draw 80 against threshold 10, with userSampling on and
quarantine 7 in one conjunct and userSampling off in the other. -/
theorem C6_witness :
    (passesStorageRules ⟨true, ("neb_"), (fun _ => 80), none, none⟩
        ⟨("A"), some 1, some 10, some 7⟩ 0 ⟨⟨[], []⟩, 0, [], []⟩ =
      .ok (false,
        ⟨⟨[(("neb_") ++ ("A"), StoredStr.item ("true") (some 604800000))], []⟩, 1,
          [.excluded_quarantined_user_sampling ("A") 10],
          [("SURVEY: survey ") ++ ("A") ++ (" is excluded by sampling, and quarantined (user sampling)")]⟩)) ∧
    (passesStorageRules ⟨false, ("neb_"), (fun _ => 80), none, none⟩
        ⟨("A"), some 1, some 10, some 7⟩ 0 ⟨⟨[], []⟩, 0, [], []⟩ =
      .ok (false,
        ⟨⟨[], []⟩, 1,
          [.excluded_not_quarantined_event_sampling ("A") 10],
          [("SURVEY: survey ") ++ ("A") ++ (" is excluded by sampling, and not quarantined (event sampling)")]⟩)) :=
  ⟨(C6_excluded_sampling_policy ⟨true, ("neb_"), (fun _ => 80), none, none⟩
      ⟨("A"), some 1, some 10, some 7⟩ 0 ⟨⟨[], []⟩, 0, [], []⟩ ⟨[], []⟩ (by decide) (by decide)).1
      7 rfl rfl (by decide),
   (C6_excluded_sampling_policy ⟨false, ("neb_"), (fun _ => 80), none, none⟩
      ⟨("A"), some 1, some 10, some 7⟩ 0 ⟨⟨[], []⟩, 0, [], []⟩ ⟨[], []⟩ (by decide) (by decide)).2 rfl⟩

/-- Claim C7: quarantineSurvey with positive days writes a durable record under the
prefixed key whose expiry is now plus days times 86400000 milliseconds (that
is, days times 86400 seconds) and emits survey_quarantined with storage
local; with days 0 it writes a session record with no expiry and emits
survey_quarantined with days 0 and storage session. -/
theorem C7_quarantineSurvey_tiers
    (env : Env) (sid : String) (d now : Int) (s : EngState) :
    (0 < d →
      quarantineSurvey env sid d now s =
        { s with
            storage := { s.storage with localS := setItem s.storage.localS (env.keyPfx ++ sid) (.item ("true") (some (now + d * 86400000))) },
            events := s.events ++ [.quarantined sid d ("local")] }) ∧
    (d = 0 →
      quarantineSurvey env sid d now s =
        { s with
            storage := { s.storage with sessionS := setItem s.storage.sessionS (env.keyPfx ++ sid) (.item ("true") none) },
            events := s.events ++ [.quarantined sid 0 ("session")] }) := by
  constructor
  · intro hd
    unfold quarantineSurvey
    rw [if_pos hd, setWithExpiry_pos (by omega), emit_eval]
  · intro hd
    subst hd
    unfold quarantineSurvey
    rw [if_neg (by omega : ¬ (0 : Int) < 0), setWithExpiry_zero, emit_eval]

/-- Witness for C7: quarantineSurvey at days 10 and at days 0. -/
theorem C7_witness :
    quarantineSurvey ⟨false, ("neb_"), (fun _ => 0), none, none⟩ ("A") 10 0 ⟨⟨[], []⟩, 0, [], []⟩ =
      ⟨⟨[(("neb_") ++ ("A"), StoredStr.item ("true") (some 864000000))], []⟩, 0,
        [.quarantined ("A") 10 ("local")], []⟩ ∧
    quarantineSurvey ⟨false, ("neb_"), (fun _ => 0), none, none⟩ ("A") 0 0 ⟨⟨[], []⟩, 0, [], []⟩ =
      ⟨⟨[], [(("neb_") ++ ("A"), StoredStr.item ("true") none)]⟩, 0,
        [.quarantined ("A") 0 ("session")], []⟩ :=
  ⟨(C7_quarantineSurvey_tiers ⟨false, ("neb_"), (fun _ => 0), none, none⟩ ("A") 10 0
      ⟨⟨[], []⟩, 0, [], []⟩).1 (by decide),
   (C7_quarantineSurvey_tiers ⟨false, ("neb_"), (fun _ => 0), none, none⟩ ("A") 0 0
      ⟨⟨[], []⟩, 0, [], []⟩).2 rfl⟩

/-- Claim C8 counterexample: a durable record whose expiry timestamp is exactly 0
(the epoch), which is earlier than the current time 5, is NOT treated as
expired: the truthiness guard in the source skips a zero expiry, so the read
returns the stored value and deletes nothing, where the claim requires
absence and deletion. -/
theorem C8_counterexample :
    (0 : Int) < 5 ∧
    getWithExpiry ⟨[(("neb_A"), StoredStr.item ("true") (some 0))], []⟩ ("neb_A") 5 =
      (.ok (some ("true")), ⟨[(("neb_A"), StoredStr.item ("true") (some 0))], []⟩) :=
  ⟨by decide, by decide⟩

/-- Claim C8, corrected: for every stored record carrying a NONZERO expiry earlier
than the current time (in either tier, the durable tier being consulted
first), the read returns absence and removes the durable record for the key.
A record with expiry exactly 0 escapes this because the source guards with
the truthiness of the expiry field. -/
theorem C8_lazy_expiry_amended
    (st : Storage) (key v : String) (e now : Int)
    (hfound : getItem st.localS key = some (.item v (some e)) ∨
      (getItem st.localS key = none ∧ getItem st.sessionS key = some (.item v (some e))))
    (hz : e ≠ 0) (hlt : e < now) :
    getWithExpiry st key now = (.ok none, { st with localS := removeItem st.localS key }) ∧
    getItem (removeItem st.localS key) key = none := by
  have hex : e ≠ 0 ∧ now > e := ⟨hz, hlt⟩
  rcases hfound with h | ⟨h1, h2⟩
  · exact ⟨getWithExpiry_local_expired now h hex, by rw [getItem_removeItem]; simp⟩
  · exact ⟨getWithExpiry_session_expired now h1 h2 hex, by rw [getItem_removeItem]; simp⟩

/-- Witness for the corrected C8: a durable record with expiry 100 read at
time 200 is absent afterwards and the record is removed. -/
theorem C8_amended_witness :
    getWithExpiry ⟨[(("neb_A"), StoredStr.item ("true") (some 100))], []⟩ ("neb_A") 200 =
      (.ok none,
        ⟨removeItem [(("neb_A"), StoredStr.item ("true") (some 100))] ("neb_A"), []⟩) ∧
    getItem (removeItem [(("neb_A"), StoredStr.item ("true") (some 100))] ("neb_A")) ("neb_A") = none :=
  C8_lazy_expiry_amended ⟨[(("neb_A"), StoredStr.item ("true") (some 100))], []⟩ ("neb_A")
    ("true") 100 200 (Or.inl (by decide)) (by decide) (by decide)

theorem chooseLoop_append (env : Env) (reg : String → Option SurveyCfg) (now : Int) :
    ∀ (l1 l2 : List String) (ls : LoopState),
      chooseLoop env reg now (l1 ++ l2) ls =
        match chooseLoop env reg now l1 ls with
        | .error e => .error e
        | .ok ls1 => chooseLoop env reg now l2 ls1 := by
  intro l1
  induction l1 with
  | nil => intro l2 ls; rfl
  | cons c rest ih =>
    intro l2 ls
    rcases hst : chooseStep env reg now ls c with e | ls1
    · cases e
      rw [show ((c :: rest) ++ l2) = c :: (rest ++ l2) from rfl,
        chooseLoop_cons_err hst, chooseLoop_cons_err hst]
    · rw [show ((c :: rest) ++ l2) = c :: (rest ++ l2) from rfl,
        chooseLoop_cons_ok hst, chooseLoop_cons_ok hst]
      exact ih l2 ls1

/-- Claim C1 counterexample: two resolved candidates A (priority 10) and B
(priority 5), both percentage 100 with quarantine days 7, userSampling on,
all draws 0. A is evaluated and chosen; B, although it resolves and would be
sampled in and quarantined if its check ran, is skipped entirely: the final
random counter is 1 (a single draw was consumed for both candidates), no
event names B, and no quarantine entry exists under the key for B. This
falsifies the claim that every resolved candidate has its eligibility check
performed. -/
theorem C1_counterexample :
    chooseSurvey ⟨true, ("neb_"), (fun _ => 0), none, none⟩
      (fun id => if id = ("A") then some ⟨("A"), some 10, some 100, some 7⟩
        else if id = ("B") then some ⟨("B"), some 5, some 100, some 7⟩ else none) 0
      [("A"), ("B")] ⟨⟨[], []⟩, 0, [], []⟩ =
      .ok (some ⟨("A"), some 10, some 100, some 7⟩,
        ⟨⟨[(("neb_A"), StoredStr.item ("true") (some 604800000))], []⟩, 1,
          [.quarantine_set_on_sample ("A") 7, .included_by_sampling ("A") 100,
            .chosen ("A") (some 10)], []⟩) ∧
    getItem [(("neb_A"), StoredStr.item ("true") (some 604800000))] (("neb_") ++ ("B")) = none :=
  ⟨by decide, by decide⟩

/-- Claim C1, corrected: the selection loop short-circuits on the running maximum
priority. A resolved candidate whose coerced priority does not strictly
exceed the running maximum is skipped with no quarantine lookup, no draw, no
write and no event (the step is the identity on the loop state), and such a
candidate can be deleted from the candidate list without changing the run at
all. Eligibility is evaluated only for resolved candidates that strictly beat
the running maximum. -/
theorem C1_short_circuit_amended
    (env : Env) (reg : String → Option SurveyCfg) (now : Int) :
    (∀ (ls : LoopState) (c : String) (cfg : SurveyCfg),
      reg c = some cfg →
      (∀ p, cfg.priority = some p → p ≤ ls.maxPriority) →
      chooseStep env reg now ls c = .ok ls) ∧
    (∀ (l1 l2 : List String) (c : String) (cfg : SurveyCfg) (ls ls1 : LoopState),
      chooseLoop env reg now l1 ls = .ok ls1 →
      reg c = some cfg →
      (∀ p, cfg.priority = some p → p ≤ ls1.maxPriority) →
      chooseLoop env reg now (l1 ++ c :: l2) ls = chooseLoop env reg now (l1 ++ l2) ls) := by
  have hskip : ∀ (ls : LoopState) (c : String) (cfg : SurveyCfg),
      reg c = some cfg →
      (∀ p, cfg.priority = some p → p ≤ ls.maxPriority) →
      chooseStep env reg now ls c = .ok ls := by
    intro ls c cfg hr hple
    rcases hp : cfg.priority with _ | p
    · exact chooseStep_skip_nan hr hp
    · exact chooseStep_skip_low hr hp (by have := hple p hp; omega)
  refine ⟨hskip, ?_⟩
  intro l1 l2 c cfg ls ls1 hloop hr hple
  rw [chooseLoop_append env reg now l1 (c :: l2) ls, chooseLoop_append env reg now l1 l2 ls,
    hloop]
  show chooseLoop env reg now (c :: l2) ls1 = chooseLoop env reg now l2 ls1
  rw [chooseLoop_cons_ok (hskip ls1 c cfg hr hple)]

/-- Witness for the corrected C1: with A already the running best at
priority 10, deleting the lower-priority candidate B from the list leaves
the whole run unchanged. -/
theorem C1_witness :
    chooseLoop ⟨true, ("neb_"), (fun _ => 0), none, none⟩
      (fun id => if id = ("A") then some ⟨("A"), some 10, some 100, some 7⟩
        else if id = ("B") then some ⟨("B"), some 5, some 100, some 7⟩ else none) 0
      ([("A")] ++ ("B") :: []) ⟨-1, none, ⟨⟨[], []⟩, 0, [], []⟩⟩ =
    chooseLoop ⟨true, ("neb_"), (fun _ => 0), none, none⟩
      (fun id => if id = ("A") then some ⟨("A"), some 10, some 100, some 7⟩
        else if id = ("B") then some ⟨("B"), some 5, some 100, some 7⟩ else none) 0
      ([("A")] ++ []) ⟨-1, none, ⟨⟨[], []⟩, 0, [], []⟩⟩ :=
  (C1_short_circuit_amended ⟨true, ("neb_"), (fun _ => 0), none, none⟩
      (fun id => if id = ("A") then some ⟨("A"), some 10, some 100, some 7⟩
        else if id = ("B") then some ⟨("B"), some 5, some 100, some 7⟩ else none) 0).2
    [("A")] [] ("B") ⟨("B"), some 5, some 100, some 7⟩ ⟨-1, none, ⟨⟨[], []⟩, 0, [], []⟩⟩
    ⟨10, some ⟨("A"), some 10, some 100, some 7⟩,
      ⟨⟨[(("neb_A"), StoredStr.item ("true") (some 604800000))], []⟩, 1,
        [.quarantine_set_on_sample ("A") 7, .included_by_sampling ("A") 100], []⟩⟩
    (by decide) (by decide) (by decide)

theorem storeOk_getItem {l : Store} {k : String} (h : storeOk l = true) :
    getItem l k ≠ some StoredStr.corrupt := by
  induction l with
  | nil => simp [getItem]
  | cons a t ih =>
    rcases a with ⟨ka, va⟩
    simp only [storeOk, List.all_cons, Bool.and_eq_true] at h
    unfold getItem
    by_cases hka : ka = k
    · rw [if_pos hka]
      intro hcon
      injection hcon with h2
      rw [h2] at h
      simp at h
    · rw [if_neg hka]
      exact ih (by unfold storeOk; exact h.2)

theorem storeOk_removeItem {l : Store} (k : String) (h : storeOk l = true) :
    storeOk (removeItem l k) = true := by
  unfold storeOk removeItem at *
  rw [List.all_eq_true] at *
  intro p hp
  exact h p (List.mem_of_mem_filter hp)

theorem storeOk_setItem {l : Store} (k value : String) (e : Option Int)
    (h : storeOk l = true) :
    storeOk (setItem l k (.item value e)) = true := by
  unfold storeOk setItem at *
  rw [List.all_cons, h]
  rfl

theorem storageOk_gwe_snd {st : Storage} (k : String) (now : Int)
    (h : storageOk st = true) :
    storageOk (getWithExpiry st k now).2 = true := by
  rcases getWithExpiry_cases st k now with h2 | h2 | ⟨v, h2⟩ | h2 <;> rw [h2]
  · exact h
  · exact h
  · exact h
  · unfold storageOk at *
    rw [Bool.and_eq_true] at h
    rw [Bool.and_eq_true]
    exact ⟨storeOk_removeItem k h.1, h.2⟩

theorem storageOk_setWithExpiry {st : Storage} (k value : String) (d now : Int)
    (h : storageOk st = true) :
    storageOk (setWithExpiry st k value d now) = true := by
  unfold setWithExpiry
  by_cases hd : d ≠ 0
  · rw [if_pos hd]
    unfold storageOk at *
    rw [Bool.and_eq_true] at h
    rw [Bool.and_eq_true]
    exact ⟨storeOk_setItem k value (some (now + d * 86400000)) h.1, h.2⟩
  · rw [if_neg hd]
    unfold storageOk at *
    rw [Bool.and_eq_true] at h
    rw [Bool.and_eq_true]
    exact ⟨h.1, storeOk_setItem k value none h.2⟩

theorem gwe_fst_ok_of_storageOk {st : Storage} (k : String) (now : Int)
    (h : storageOk st = true) :
    ∃ v, (getWithExpiry st k now).1 = .ok v := by
  have hok : storeOk st.localS = true ∧ storeOk st.sessionS = true := by
    unfold storageOk at h
    rw [Bool.and_eq_true] at h
    exact h
  rcases hl : getItem st.localS k with _ | w
  · rcases hs : getItem st.sessionS k with _ | w
    · exact ⟨none, by rw [getWithExpiry_of_none now hl hs]⟩
    · rcases w with ⟨v, e⟩ | _
      · rcases e with _ | ex
        · exact ⟨some v, by rw [getWithExpiry_session_noexp now hl hs]⟩
        · by_cases hex : ex ≠ 0 ∧ now > ex
          · exact ⟨none, by rw [getWithExpiry_session_expired now hl hs hex]⟩
          · exact ⟨some v, by rw [getWithExpiry_session_live now hl hs hex]⟩
      · exact absurd hs (storeOk_getItem hok.2)
  · rcases w with ⟨v, e⟩ | _
    · rcases e with _ | ex
      · exact ⟨some v, by rw [getWithExpiry_local_noexp now hl]⟩
      · by_cases hex : ex ≠ 0 ∧ now > ex
        · exact ⟨none, by rw [getWithExpiry_local_expired now hl hex]⟩
        · exact ⟨some v, by rw [getWithExpiry_local_live now hl hex]⟩
    · exact absurd hl (storeOk_getItem hok.1)

theorem psr_ok_of_storageOk (env : Env) (survey : SurveyCfg) (now : Int) {s : EngState}
    (h : storageOk s.storage = true) :
    ∃ b s', passesStorageRules env survey now s = .ok (b, s') ∧
      storageOk s'.storage = true := by
  rcases gwe_fst_ok_of_storageOk (env.keyPfx ++ survey.survey_id) now h with ⟨v, hv⟩
  rcases hg : getWithExpiry s.storage (env.keyPfx ++ survey.survey_id) now with ⟨f, st'⟩
  rw [hg] at hv
  simp only at hv
  subst hv
  have hst' : storageOk st' = true := by
    have h2 := storageOk_gwe_snd (env.keyPfx ++ survey.survey_id) now h
    rw [hg] at h2
    exact h2
  by_cases hjt : jsTruthy v = true
  · rcases v with _ | v
    · simp [jsTruthy] at hjt
    · exact ⟨false, _, psr_of_blocked hg (by simpa [jsTruthy] using hjt), hst'⟩
  · rw [Bool.not_eq_true] at hjt
    by_cases hle : ((env.rand s.rng : Nat) : Int) ≤ survey.percentage.getD 0
    · rcases hqq : survey.quarantine with _ | q
      · exact ⟨true, _, psr_sampled_nowrite hg hjt hle (fun q hq => by rw [hqq] at hq; cases hq), hst'⟩
      · by_cases hq0 : 0 < q
        · exact ⟨true, _, psr_sampled_write hg hjt hle hqq hq0,
            storageOk_setWithExpiry (env.keyPfx ++ survey.survey_id) ("true") q now hst'⟩
        · exact ⟨true, _, psr_sampled_nowrite hg hjt hle
            (fun q' hq' => by rw [hqq] at hq'; injection hq' with h2; rw [← h2]; exact hq0), hst'⟩
    · rcases hu : env.userSampling with _ | _
      · exact ⟨false, _, psr_excluded_event hg hjt hle hu, hst'⟩
      · rcases hqq : survey.quarantine with _ | q
        · exact ⟨false, _, psr_excluded_user_nowrite hg hjt hle hu (fun q hq => by rw [hqq] at hq; cases hq), hst'⟩
        · by_cases hq0 : 0 < q
          · exact ⟨false, _, psr_excluded_user_write hg hjt hle hu hqq hq0,
              storageOk_setWithExpiry (env.keyPfx ++ survey.survey_id) ("true") q now hst'⟩
          · exact ⟨false, _, psr_excluded_user_nowrite hg hjt hle hu
              (fun q' hq' => by rw [hqq] at hq'; injection hq' with h2; rw [← h2]; exact hq0), hst'⟩

theorem chooseStep_ok_of_storageOk (env : Env) (reg : String → Option SurveyCfg)
    (now : Int) {ls : LoopState} (c : String)
    (h : storageOk ls.s.storage = true) :
    ∃ ls1, chooseStep env reg now ls c = .ok ls1 ∧ storageOk ls1.s.storage = true := by
  rcases hr : reg c with _ | cfg
  · exact ⟨_, chooseStep_missing hr, by rw [emit_eval]; exact h⟩
  · rcases hp : cfg.priority with _ | p
    · exact ⟨ls, chooseStep_skip_nan hr hp, h⟩
    · by_cases hlt : ls.maxPriority < p
      · rcases psr_ok_of_storageOk env cfg now h with ⟨b, s', hps, hs'⟩
        rcases b
        · exact ⟨_, chooseStep_eval_fail hr hp hlt hps, hs'⟩
        · exact ⟨_, chooseStep_eval_pass hr hp hlt hps, hs'⟩
      · exact ⟨ls, chooseStep_skip_low hr hp hlt, h⟩

theorem chooseLoop_ok_of_storageOk (env : Env) (reg : String → Option SurveyCfg)
    (now : Int) :
    ∀ (ids : List String) (ls : LoopState), storageOk ls.s.storage = true →
      ∃ ls', chooseLoop env reg now ids ls = .ok ls' ∧ storageOk ls'.s.storage = true := by
  intro ids
  induction ids with
  | nil => intro ls h; exact ⟨ls, chooseLoop_nil, h⟩
  | cons c rest ih =>
    intro ls h
    rcases chooseStep_ok_of_storageOk env reg now c h with ⟨ls1, hst, h1⟩
    rcases ih ls1 h1 with ⟨ls', hlp, h2⟩
    exact ⟨ls', by rw [chooseLoop_cons_ok hst]; exact hlp, h2⟩

/-- Claim C2 counterexample: with a corrupted (non-JSON) string stored under the
quarantine key for candidate A, chooseSurvey propagates the JSON.parse
exception instead of treating the record as absent: the run returns an
error, falsifying the claim that chooseSurvey never raises. -/
theorem C2_counterexample :
    chooseSurvey ⟨false, ("neb_"), (fun _ => 0), none, none⟩
      (fun id => if id = ("A") then some ⟨("A"), some 1, some 100, none⟩ else none) 0
      [("A")] ⟨⟨[(("neb_A"), StoredStr.corrupt)], []⟩, 0, [], []⟩ = .error () := by
  decide

/-- Claim C2, corrected: quarantineSurvey performs no storage read and never
raises; chooseSurvey never raises provided every stored record parses (no
corrupted strings in either tier), and both operations preserve that
well-formedness; but a corrupted stored record makes the quarantine read
throw and the error propagates out of chooseSurvey. -/
theorem C2_no_throw_on_wellformed_state
    (env : Env) (reg : String → Option SurveyCfg) (now : Int) (ids : List String)
    (s : EngState) (h : storageOk s.storage = true) :
    (∃ r s', chooseSurvey env reg now ids s = .ok (r, s') ∧ storageOk s'.storage = true) ∧
    ∀ sid d, storageOk (quarantineSurvey env sid d now s).storage = true := by
  constructor
  · rcases ids with _ | ⟨i0, tl⟩
    · exact ⟨none, s, rfl, h⟩
    · rcases chooseLoop_ok_of_storageOk env reg now (i0 :: tl)
        ⟨-1, none, s⟩ h with ⟨ls', hlp, h2⟩
      rcases hch : ls'.chosen with _ | cfg
      · refine ⟨none, _, chooseSurvey_run_none s hlp hch, ?_⟩
        rw [emit_eval]
        exact h2
      · refine ⟨some cfg, _, chooseSurvey_run_chosen s hlp hch, ?_⟩
        rw [emit_eval]
        exact h2
  · intro sid d
    unfold quarantineSurvey
    by_cases hd : 0 < d
    · rw [if_pos hd, emit_eval]
      exact storageOk_setWithExpiry (env.keyPfx ++ sid) ("true") d now h
    · rw [if_neg hd, emit_eval]
      exact storageOk_setWithExpiry (env.keyPfx ++ sid) ("true") 0 now h

/-- Witness for the corrected C2 at a well-formed state holding one durable
and one session record. -/
theorem C2_witness :
    ((∃ r s', chooseSurvey ⟨false, ("neb_"), (fun _ => 0), none, none⟩
        (fun id => if id = ("A") then some ⟨("A"), some 1, some 100, none⟩ else none) 0
        [("A")] ⟨⟨[(("neb_B"), StoredStr.item ("true") (some 99))], [(("neb_C"), StoredStr.item ("true") none)]⟩, 0, [], []⟩ = .ok (r, s') ∧
        storageOk s'.storage = true) ∧
      ∀ sid d, storageOk (quarantineSurvey ⟨false, ("neb_"), (fun _ => 0), none, none⟩ sid d 0
        ⟨⟨[(("neb_B"), StoredStr.item ("true") (some 99))], [(("neb_C"), StoredStr.item ("true") none)]⟩, 0, [], []⟩).storage = true) :=
  C2_no_throw_on_wellformed_state ⟨false, ("neb_"), (fun _ => 0), none, none⟩
    (fun id => if id = ("A") then some ⟨("A"), some 1, some 100, none⟩ else none) 0
    [("A")] ⟨⟨[(("neb_B"), StoredStr.item ("true") (some 99))], [(("neb_C"), StoredStr.item ("true") none)]⟩, 0, [], []⟩ (by decide)

theorem psr_callback_indep (u : Bool) (pfx : String) (r : Nat → Nat)
    (o1 o2 : Option (Event → Except Unit Unit)) (l1 l2 : Option (String → Except Unit Unit))
    (survey : SurveyCfg) (now : Int) (s : EngState) :
    passesStorageRules ⟨u, pfx, r, o1, l1⟩ survey now s =
      passesStorageRules ⟨u, pfx, r, o2, l2⟩ survey now s := by
  unfold passesStorageRules
  simp only [emit_eval, logMsg_eval]

theorem chooseStep_callback_indep (u : Bool) (pfx : String) (r : Nat → Nat)
    (o1 o2 : Option (Event → Except Unit Unit)) (l1 l2 : Option (String → Except Unit Unit))
    (reg : String → Option SurveyCfg) (now : Int) (ls : LoopState) (c : String) :
    chooseStep ⟨u, pfx, r, o1, l1⟩ reg now ls c =
      chooseStep ⟨u, pfx, r, o2, l2⟩ reg now ls c := by
  unfold chooseStep
  simp only [psr_callback_indep u pfx r o1 o2 l1 l2, emit_eval]

theorem chooseLoop_callback_indep (u : Bool) (pfx : String) (r : Nat → Nat)
    (o1 o2 : Option (Event → Except Unit Unit)) (l1 l2 : Option (String → Except Unit Unit))
    (reg : String → Option SurveyCfg) (now : Int) :
    ∀ (ids : List String) (ls : LoopState),
      chooseLoop ⟨u, pfx, r, o1, l1⟩ reg now ids ls =
        chooseLoop ⟨u, pfx, r, o2, l2⟩ reg now ids ls := by
  intro ids
  induction ids with
  | nil => intro ls; rfl
  | cons c rest ih =>
    intro ls
    rcases hst : chooseStep ⟨u, pfx, r, o2, l2⟩ reg now ls c with e | ls1
    · cases e
      rw [chooseLoop_cons_err ((chooseStep_callback_indep u pfx r o1 o2 l1 l2 reg now ls c).trans hst),
        chooseLoop_cons_err hst]
    · rw [chooseLoop_cons_ok ((chooseStep_callback_indep u pfx r o1 o2 l1 l2 reg now ls c).trans hst),
        chooseLoop_cons_ok hst]
      exact ih ls1

/-- Claim C9: neither the return value nor any engine state (storage, random
counter, emitted trace) of chooseSurvey or quarantineSurvey depends on the
onEvent and logger callbacks: callbacks that throw on every invocation and
callbacks that never throw yield identical runs, because exceptions are
caught and discarded at the emit and log call sites. -/
theorem C9_callbacks_never_alter_control_flow
    (u : Bool) (pfx : String) (r : Nat → Nat)
    (o1 o2 : Option (Event → Except Unit Unit)) (l1 l2 : Option (String → Except Unit Unit))
    (reg : String → Option SurveyCfg) (now : Int) (ids : List String)
    (s : EngState) (sid : String) (d : Int) :
    chooseSurvey ⟨u, pfx, r, o1, l1⟩ reg now ids s =
      chooseSurvey ⟨u, pfx, r, o2, l2⟩ reg now ids s ∧
    quarantineSurvey ⟨u, pfx, r, o1, l1⟩ sid d now s =
      quarantineSurvey ⟨u, pfx, r, o2, l2⟩ sid d now s := by
  constructor
  · rcases ids with _ | ⟨i0, tl⟩
    · rfl
    · unfold chooseSurvey
      rw [chooseLoop_callback_indep u pfx r o1 o2 l1 l2 reg now (i0 :: tl) ⟨-1, none, s⟩]
      rcases chooseLoop ⟨u, pfx, r, o2, l2⟩ reg now (i0 :: tl) ⟨-1, none, s⟩ with e | ls'
      · rfl
      · rcases ls'.chosen with _ | cfg <;> simp only [emit_eval]
  · unfold quarantineSurvey
    simp only [emit_eval]

theorem psr_pass_of_open (env : Env) (cfg : SurveyCfg) (now : Int) (s : EngState)
    (hl : getItem s.storage.localS (env.keyPfx ++ cfg.survey_id) = none)
    (hs : getItem s.storage.sessionS (env.keyPfx ++ cfg.survey_id) = none)
    (hp : 99 ≤ cfg.percentage.getD 0)
    (hq : ∀ q, cfg.quarantine = some q → ¬ 0 < q)
    (hr : env.rand s.rng ≤ 99) :
    passesStorageRules env cfg now s =
      .ok (true,
        { s with
            rng := s.rng + 1,
            events := s.events ++ [.included_by_sampling cfg.survey_id (cfg.percentage.getD 0)] }) := by
  have hg := getWithExpiry_of_none now hl hs
  have hle : ((env.rand s.rng : Nat) : Int) ≤ cfg.percentage.getD 0 := by omega
  exact psr_sampled_nowrite hg rfl hle hq

theorem chooseLoop_argmax (env : Env) (reg : String → Option SurveyCfg) (now : Int)
    (hrand : ∀ n, env.rand n ≤ 99) :
    ∀ (ids : List String) (ls : LoopState),
      (∀ id, id ∈ ids → ∀ cfg, reg id = some cfg → ∀ p, cfg.priority = some p →
        ls.maxPriority < p →
          getItem ls.s.storage.localS (env.keyPfx ++ cfg.survey_id) = none ∧
          getItem ls.s.storage.sessionS (env.keyPfx ++ cfg.survey_id) = none ∧
          99 ≤ cfg.percentage.getD 0 ∧
          ∀ q, cfg.quarantine = some q → ¬ 0 < q) →
      ∃ ls', chooseLoop env reg now ids ls = .ok ls' ∧
        ls'.s.storage = ls.s.storage ∧
        ((ls'.maxPriority = ls.maxPriority ∧ ls'.chosen = ls.chosen ∧
          ∀ id, id ∈ ids → ∀ cfg, reg id = some cfg → ∀ p, cfg.priority = some p →
            p ≤ ls.maxPriority) ∨
         (∃ pre cand post cfg p, ids = pre ++ cand :: post ∧
            reg cand = some cfg ∧ cfg.priority = some p ∧ ls.maxPriority < p ∧
            ls'.maxPriority = p ∧ ls'.chosen = some cfg ∧
            (∀ id, id ∈ pre → ∀ cfg2, reg id = some cfg2 → ∀ p2, cfg2.priority = some p2 →
              p2 < p) ∧
            (∀ id, id ∈ ids → ∀ cfg2, reg id = some cfg2 → ∀ p2, cfg2.priority = some p2 →
              p2 ≤ p))) := by
  intro ids
  induction ids with
  | nil =>
    intro ls hcond
    refine ⟨ls, chooseLoop_nil, rfl, .inl ⟨rfl, rfl, ?_⟩⟩
    intro id hid
    cases hid
  | cons c rest ih =>
    intro ls hcond
    have lift : ∀ ls1, chooseStep env reg now ls c = .ok ls1 →
        ls1.maxPriority = ls.maxPriority → ls1.chosen = ls.chosen →
        ls1.s.storage = ls.s.storage →
        (∀ cfg2, reg c = some cfg2 → ∀ p2, cfg2.priority = some p2 →
          p2 ≤ ls.maxPriority) →
        ∃ ls', chooseLoop env reg now (c :: rest) ls = .ok ls' ∧
          ls'.s.storage = ls.s.storage ∧
          ((ls'.maxPriority = ls.maxPriority ∧ ls'.chosen = ls.chosen ∧
            ∀ id, id ∈ c :: rest → ∀ cfg, reg id = some cfg → ∀ p, cfg.priority = some p →
              p ≤ ls.maxPriority) ∨
           (∃ pre cand post cfg p, c :: rest = pre ++ cand :: post ∧
              reg cand = some cfg ∧ cfg.priority = some p ∧ ls.maxPriority < p ∧
              ls'.maxPriority = p ∧ ls'.chosen = some cfg ∧
              (∀ id, id ∈ pre → ∀ cfg2, reg id = some cfg2 → ∀ p2, cfg2.priority = some p2 →
                p2 < p) ∧
              (∀ id, id ∈ c :: rest → ∀ cfg2, reg id = some cfg2 → ∀ p2, cfg2.priority = some p2 →
                p2 ≤ p))) := by
      intro ls1 hstep hmax hch hstor hcle
      have hcond1 : ∀ id, id ∈ rest → ∀ cfg, reg id = some cfg → ∀ p, cfg.priority = some p →
          ls1.maxPriority < p →
            getItem ls1.s.storage.localS (env.keyPfx ++ cfg.survey_id) = none ∧
            getItem ls1.s.storage.sessionS (env.keyPfx ++ cfg.survey_id) = none ∧
            99 ≤ cfg.percentage.getD 0 ∧
            ∀ q, cfg.quarantine = some q → ¬ 0 < q := by
        intro id hid cfg2 hcfg2 p2 hp2 hlt2
        rw [hmax] at hlt2
        rw [hstor]
        exact hcond id (List.mem_cons_of_mem c hid) cfg2 hcfg2 p2 hp2 hlt2
      rcases ih ls1 hcond1 with ⟨ls', hlp, hstor', hcase⟩
      refine ⟨ls', ?_, ?_, ?_⟩
      · rw [chooseLoop_cons_ok hstep]
        exact hlp
      · rw [hstor', hstor]
      · rcases hcase with ⟨h1, h2, h3⟩ | ⟨pre, cand, post, cfg2, p2, hdec, hbr, hbp, hblt, hbm, hbc, hpre, hall⟩
        · left
          refine ⟨by rw [h1, hmax], by rw [h2, hch], ?_⟩
          intro id hid cfg3 hcfg3 p3 hp3
          rcases List.mem_cons.mp hid with h | h
          · subst h
            exact hcle cfg3 hcfg3 p3 hp3
          · have := h3 id h cfg3 hcfg3 p3 hp3
            rw [hmax] at this
            exact this
        · right
          have hblt2 : ls.maxPriority < p2 := by rw [hmax] at hblt; exact hblt
          refine ⟨c :: pre, cand, post, cfg2, p2, by rw [hdec]; rfl, hbr, hbp, hblt2,
            hbm, hbc, ?_, ?_⟩
          · intro id hid cfg3 hcfg3 p3 hp3
            rcases List.mem_cons.mp hid with h | h
            · subst h
              have := hcle cfg3 hcfg3 p3 hp3
              omega
            · exact hpre id h cfg3 hcfg3 p3 hp3
          · intro id hid cfg3 hcfg3 p3 hp3
            rcases List.mem_cons.mp hid with h | h
            · subst h
              have := hcle cfg3 hcfg3 p3 hp3
              omega
            · exact hall id h cfg3 hcfg3 p3 hp3
    rcases hr : reg c with _ | cfg
    · refine lift { ls with s := emit env (.missing_config c) ls.s } (chooseStep_missing hr)
        rfl rfl (by rw [emit_eval]) ?_
      intro cfg2 hcfg2
      rw [hr] at hcfg2
      cases hcfg2
    · rcases hp : cfg.priority with _ | p
      · refine lift ls (chooseStep_skip_nan hr hp) rfl rfl rfl ?_
        intro cfg2 hcfg2 p2 hp2
        rw [hr] at hcfg2
        injection hcfg2 with h4
        rw [← h4, hp] at hp2
        cases hp2
      · by_cases hlt : ls.maxPriority < p
        · -- evaluated: the candidate passes and becomes the new best
          have hfour := hcond c (List.mem_cons_self c rest) cfg hr p hp hlt
          have hpass := psr_pass_of_open env cfg now ls.s hfour.1 hfour.2.1 hfour.2.2.1
            hfour.2.2.2 (hrand ls.s.rng)
          have hstep := chooseStep_eval_pass hr hp hlt hpass
          have hcond1 : ∀ id, id ∈ rest → ∀ cfg2, reg id = some cfg2 → ∀ p2,
              cfg2.priority = some p2 → p < p2 →
                getItem ls.s.storage.localS (env.keyPfx ++ cfg2.survey_id) = none ∧
                getItem ls.s.storage.sessionS (env.keyPfx ++ cfg2.survey_id) = none ∧
                99 ≤ cfg2.percentage.getD 0 ∧
                ∀ q, cfg2.quarantine = some q → ¬ 0 < q := by
            intro id hid cfg2 hcfg2 p2 hp2 hlt2
            exact hcond id (List.mem_cons_of_mem c hid) cfg2 hcfg2 p2 hp2 (by omega)
          rcases ih ⟨p, some cfg,
              { ls.s with
                  rng := ls.s.rng + 1,
                  events := ls.s.events ++ [.included_by_sampling cfg.survey_id (cfg.percentage.getD 0)] }⟩
            hcond1 with ⟨ls', hlp, hstor', hcase⟩
          refine ⟨ls', ?_, ?_, ?_⟩
          · rw [chooseLoop_cons_ok hstep]
            exact hlp
          · exact hstor'
          · rcases hcase with ⟨h1, h2, h3⟩ | ⟨pre, cand, post, cfg2, p2, hdec, hbr, hbp, hblt, hbm, hbc, hpre, hall⟩
            · right
              refine ⟨[], c, rest, cfg, p, rfl, hr, hp, hlt, h1, h2, ?_, ?_⟩
              · intro id hid
                cases hid
              · intro id hid cfg3 hcfg3 p3 hp3
                rcases List.mem_cons.mp hid with h | h
                · subst h
                  rw [hr] at hcfg3
                  injection hcfg3 with h4
                  rw [← h4, hp] at hp3
                  injection hp3 with h5
                  omega
                · have := h3 id h cfg3 hcfg3 p3 hp3
                  exact this
            · right
              have hblt2 : p < p2 := hblt
              refine ⟨c :: pre, cand, post, cfg2, p2, by rw [hdec]; rfl, hbr, hbp,
                by omega, hbm, hbc, ?_, ?_⟩
              · intro id hid cfg3 hcfg3 p3 hp3
                rcases List.mem_cons.mp hid with h | h
                · subst h
                  rw [hr] at hcfg3
                  injection hcfg3 with h4
                  rw [← h4, hp] at hp3
                  injection hp3 with h5
                  omega
                · exact hpre id h cfg3 hcfg3 p3 hp3
              · intro id hid cfg3 hcfg3 p3 hp3
                rcases List.mem_cons.mp hid with h | h
                · subst h
                  rw [hr] at hcfg3
                  injection hcfg3 with h4
                  rw [← h4, hp] at hp3
                  injection hp3 with h5
                  omega
                · exact hall id h cfg3 hcfg3 p3 hp3
        · refine lift ls (chooseStep_skip_low hr hp hlt) rfl rfl rfl ?_
          intro cfg2 hcfg2 p2 hp2
          rw [hr] at hcfg2
          injection hcfg2 with h4
          rw [← h4, hp] at hp2
          injection hp2 with h5
          omega

/-- Claim C5 counterexample: a single candidate that is eligible (empty storage,
percentage 100, the eligibility check returns true on the same state and
draws) but whose coerced priority -5 never beats the -1 sentinel: chooseSurvey
returns null although an eligible candidate exists, falsifying the claim as
stated. -/
theorem C5_counterexample :
    chooseSurvey ⟨false, ("neb_"), (fun _ => 0), none, none⟩
      (fun id => if id = ("A") then some ⟨("A"), some (-5), some 100, none⟩ else none) 0
      [("A")] ⟨⟨[], []⟩, 0, [], []⟩ =
      .ok (none, ⟨⟨[], []⟩, 0, [.none_chosen [("A")]], []⟩) ∧
    passesStorageRules ⟨false, ("neb_"), (fun _ => 0), none, none⟩
      ⟨("A"), some (-5), some 100, none⟩ 0 ⟨⟨[], []⟩, 0, [], []⟩ =
      .ok (true, ⟨⟨[], []⟩, 1, [.included_by_sampling ("A") 100], []⟩) :=
  ⟨by decide, by decide⟩

/-- Claim C5, corrected: when every resolved candidate is eligible (no quarantine
entry under its key, percentage at least 99 so any draw samples it in, no
quarantine-on-sample write) and at least one resolved candidate has a
NON-NEGATIVE coerced priority, chooseSurvey returns the first candidate of
maximal coerced priority: strictly greater priorities win, ties go to the
earlier candidate. Candidates with negative or unparsable coerced priority
are never selected even when eligible (they cannot beat the -1 sentinel). -/
theorem C5_highest_priority_first_wins_amended
    (env : Env) (reg : String → Option SurveyCfg) (now : Int) (ids : List String)
    (s : EngState)
    (hrand : ∀ n, env.rand n ≤ 99)
    (helig : ∀ id, id ∈ ids → ∀ cfg, reg id = some cfg →
      getItem s.storage.localS (env.keyPfx ++ cfg.survey_id) = none ∧
      getItem s.storage.sessionS (env.keyPfx ++ cfg.survey_id) = none ∧
      99 ≤ cfg.percentage.getD 0 ∧
      ∀ q, cfg.quarantine = some q → ¬ 0 < q)
    (hsome : ∃ id, id ∈ ids ∧ ∃ cfg p, reg id = some cfg ∧ cfg.priority = some p ∧ 0 ≤ p) :
    ∃ cand cfg p s' pre post,
      chooseSurvey env reg now ids s = .ok (some cfg, s') ∧
      s'.storage = s.storage ∧
      ids = pre ++ cand :: post ∧ reg cand = some cfg ∧ cfg.priority = some p ∧ 0 ≤ p ∧
      (∀ id, id ∈ pre → ∀ cfg2, reg id = some cfg2 → ∀ p2, cfg2.priority = some p2 →
        p2 < p) ∧
      (∀ id, id ∈ ids → ∀ cfg2, reg id = some cfg2 → ∀ p2, cfg2.priority = some p2 →
        p2 ≤ p) := by
  rcases hsome with ⟨id0, hid0, cfg0, p0, hcfg0, hp0, hp0n⟩
  rcases hids : ids with _ | ⟨i0, tl⟩
  · rw [hids] at hid0
    cases hid0
  · subst hids
    rcases chooseLoop_argmax env reg now hrand (i0 :: tl) ⟨-1, none, s⟩
      (fun id hid cfg hcfg p hp _ => helig id hid cfg hcfg) with ⟨ls', hlp, hstor, hcase⟩
    rcases hcase with ⟨h1, h2, h3⟩ | ⟨pre, cand, post, cfg, p, hdec, hbr, hbp, hblt, hbm, hbc, hpre, hall⟩
    · exfalso
      have h4 : p0 ≤ (-1 : Int) := h3 id0 hid0 cfg0 hcfg0 p0 hp0
      omega
    · have hblt2 : (-1 : Int) < p := hblt
      refine ⟨cand, cfg, p, emit env (.chosen cfg.survey_id cfg.priority) ls'.s, pre, post,
        chooseSurvey_run_chosen s hlp hbc, ?_, hdec, hbr, hbp, by omega, hpre, hall⟩
      rw [emit_eval]
      exact hstor

/-- Witness for the corrected C5: eligible candidates B (priority 5) and A
(priority 10) in that order; the run returns the priority-10 candidate. -/
theorem C5_witness :
    ∃ cand cfg p s' pre post,
      chooseSurvey ⟨false, ("neb_"), (fun _ => 0), none, none⟩
        (fun id => if id = ("B") then some ⟨("B"), some 5, some 100, none⟩
          else if id = ("A") then some ⟨("A"), some 10, some 100, none⟩ else none) 0
        [("B"), ("A")] ⟨⟨[], []⟩, 0, [], []⟩ = .ok (some cfg, s') ∧
      s'.storage = (⟨⟨[], []⟩, 0, [], []⟩ : EngState).storage ∧
      [("B"), ("A")] = pre ++ cand :: post ∧
      (fun id => if id = ("B") then some (⟨("B"), some 5, some 100, none⟩ : SurveyCfg)
        else if id = ("A") then some ⟨("A"), some 10, some 100, none⟩ else none) cand = some cfg ∧
      cfg.priority = some p ∧ (0 : Int) ≤ p ∧
      (∀ id, id ∈ pre → ∀ cfg2,
        (fun id => if id = ("B") then some (⟨("B"), some 5, some 100, none⟩ : SurveyCfg)
          else if id = ("A") then some ⟨("A"), some 10, some 100, none⟩ else none) id = some cfg2 →
        ∀ p2, cfg2.priority = some p2 → p2 < p) ∧
      (∀ id, id ∈ [("B"), ("A")] → ∀ cfg2,
        (fun id => if id = ("B") then some (⟨("B"), some 5, some 100, none⟩ : SurveyCfg)
          else if id = ("A") then some ⟨("A"), some 10, some 100, none⟩ else none) id = some cfg2 →
        ∀ p2, cfg2.priority = some p2 → p2 ≤ p) :=
  C5_highest_priority_first_wins_amended ⟨false, ("neb_"), (fun _ => 0), none, none⟩
    (fun id => if id = ("B") then some ⟨("B"), some 5, some 100, none⟩
      else if id = ("A") then some ⟨("A"), some 10, some 100, none⟩ else none) 0
    [("B"), ("A")] ⟨⟨[], []⟩, 0, [], []⟩
    (fun _ => Nat.zero_le 99)
    (by
      intro id hid cfg hcfg
      rcases List.mem_cons.mp hid with h | h
      · subst h
        have h2 : some (⟨("B"), some 5, some 100, none⟩ : SurveyCfg) = some cfg := hcfg
        injection h2 with h3
        rw [← h3]
        refine ⟨by decide, by decide, by decide, ?_⟩
        intro q hq
        cases hq
      · rcases List.mem_cons.mp h with h4 | h4
        · subst h4
          have h2 : some (⟨("A"), some 10, some 100, none⟩ : SurveyCfg) = some cfg := hcfg
          injection h2 with h3
          rw [← h3]
          refine ⟨by decide, by decide, by decide, ?_⟩
          intro q hq
          cases hq
        · cases h4)
    ⟨("A"), by decide, ⟨("A"), some 10, some 100, none⟩, 10, by decide, rfl, by decide⟩

/-- Claim C10 (implicit): the quarantine key consulted and written by the
eligibility check is built from the survey_id FIELD of the resolved
definition, not from the registry key used to resolve it. With a registry
entry under key k whose definition carries survey_id sid different from k,
an entry written by quarantineSurvey under the registry key k leaves the
survey unblocked: chooseSurvey on [k] still selects it, the quarantine
written via quarantineSurvey is active under the k-derived key, and the
on-sample quarantine write lands under the sid-derived key. -/
theorem C10_quarantine_key_from_survey_id_field
    (env : Env) (reg : String → Option SurveyCfg) (k sid : String) (cfg : SurveyCfg)
    (now d p q : Int) (s : EngState)
    (hreg : reg k = some cfg) (hsid : cfg.survey_id = sid) (hne : sid ≠ k)
    (hd : 0 < d)
    (hpp : cfg.priority = some p) (hp0 : 0 ≤ p)
    (hpc : 99 ≤ cfg.percentage.getD 0)
    (hqq : cfg.quarantine = some q) (hq0 : 0 < q)
    (hl : getItem s.storage.localS (env.keyPfx ++ sid) = none)
    (hs : getItem s.storage.sessionS (env.keyPfx ++ sid) = none)
    (hr : env.rand s.rng ≤ 99) :
    ∃ s2,
      chooseSurvey env reg now [k] (quarantineSurvey env k d now s) = .ok (some cfg, s2) ∧
      quarantineActive (quarantineSurvey env k d now s).storage (env.keyPfx ++ k) now = true ∧
      getItem s2.storage.localS (env.keyPfx ++ sid) =
        some (.item ("true") (some (now + q * 86400000))) := by
  have hkey : env.keyPfx ++ k ≠ env.keyPfx ++ sid := by
    intro hcon
    exact hne (str_append_cancel hcon).symm
  have hq1 : quarantineSurvey env k d now s =
      { s with
          storage := { s.storage with localS := setItem s.storage.localS (env.keyPfx ++ k) (.item ("true") (some (now + d * 86400000))) },
          events := s.events ++ [.quarantined k d ("local")] } := by
    unfold quarantineSurvey
    rw [if_pos hd, setWithExpiry_pos (by omega), emit_eval]
  have hloc1 : (quarantineSurvey env k d now s).storage.localS =
      setItem s.storage.localS (env.keyPfx ++ k) (.item ("true") (some (now + d * 86400000))) := by
    rw [hq1]
  have hses1 : (quarantineSurvey env k d now s).storage.sessionS = s.storage.sessionS := by
    rw [hq1]
  have hrng1 : (quarantineSurvey env k d now s).rng = s.rng := by
    rw [hq1]
  have hg : getWithExpiry (quarantineSurvey env k d now s).storage
      (env.keyPfx ++ cfg.survey_id) now = (.ok none, (quarantineSurvey env k d now s).storage) := by
    rw [hsid]
    apply getWithExpiry_of_none now
    · rw [hloc1, getItem_setItem, if_neg hkey]
      exact hl
    · rw [hses1]
      exact hs
  have hle : ((env.rand (quarantineSurvey env k d now s).rng : Nat) : Int) ≤
      cfg.percentage.getD 0 := by
    rw [hrng1]
    omega
  have hpsr := psr_sampled_write hg rfl hle hqq hq0
  have hloop : chooseLoop env reg now [k] ⟨-1, none, quarantineSurvey env k d now s⟩ =
      .ok ⟨p, some cfg,
        { quarantineSurvey env k d now s with
            storage := setWithExpiry (quarantineSurvey env k d now s).storage (env.keyPfx ++ cfg.survey_id) ("true") q now,
            rng := (quarantineSurvey env k d now s).rng + 1,
            events := (quarantineSurvey env k d now s).events ++ [.quarantine_set_on_sample cfg.survey_id q, .included_by_sampling cfg.survey_id (cfg.percentage.getD 0)] }⟩ := by
    rw [chooseLoop_cons_ok (chooseStep_eval_pass hreg hpp (show (-1 : Int) < p by omega) hpsr),
      chooseLoop_nil]
  have hfinal := chooseSurvey_run_chosen (quarantineSurvey env k d now s) hloop rfl
  refine ⟨_, hfinal, ?_, ?_⟩
  · unfold quarantineActive
    have hlk : getItem (quarantineSurvey env k d now s).storage.localS (env.keyPfx ++ k) =
        some (.item ("true") (some (now + d * 86400000))) := by
      rw [hloc1, getItem_setItem]
      simp
    rw [getWithExpiry_local_live now hlk (by rintro ⟨-, h2⟩; omega)]
    rfl
  · rw [emit_eval]
    show getItem (setWithExpiry (quarantineSurvey env k d now s).storage
      (env.keyPfx ++ cfg.survey_id) ("true") q now).localS (env.keyPfx ++ sid) = _
    rw [setWithExpiry_pos (by omega)]
    show getItem (setItem (quarantineSurvey env k d now s).storage.localS
      (env.keyPfx ++ cfg.survey_id) (.item ("true") (some (now + q * 86400000)))) (env.keyPfx ++ sid) = _
    rw [hsid, getItem_setItem, if_pos rfl]

/-- Witness for C10: registry key K resolves to a definition whose survey_id
is X; quarantineSurvey on the registry key does not block the survey. -/
theorem C10_witness :
    ∃ s2,
      chooseSurvey ⟨false, ("neb_"), (fun _ => 0), none, none⟩
        (fun id => if id = ("K") then some ⟨("X"), some 1, some 100, some 3⟩ else none) 0
        [("K")]
        (quarantineSurvey ⟨false, ("neb_"), (fun _ => 0), none, none⟩ ("K") 2 0
          ⟨⟨[], []⟩, 0, [], []⟩) = .ok (some ⟨("X"), some 1, some 100, some 3⟩, s2) ∧
      quarantineActive (quarantineSurvey ⟨false, ("neb_"), (fun _ => 0), none, none⟩ ("K") 2 0
        ⟨⟨[], []⟩, 0, [], []⟩).storage (("neb_") ++ ("K")) 0 = true ∧
      getItem s2.storage.localS (("neb_") ++ ("X")) =
        some (.item ("true") (some (0 + 3 * 86400000))) :=
  C10_quarantine_key_from_survey_id_field ⟨false, ("neb_"), (fun _ => 0), none, none⟩
    (fun id => if id = ("K") then some ⟨("X"), some 1, some 100, some 3⟩ else none)
    ("K") ("X") ⟨("X"), some 1, some 100, some 3⟩ 0 2 1 3 ⟨⟨[], []⟩, 0, [], []⟩
    (by decide) rfl (by decide) (by decide) rfl (by decide) (by decide) rfl (by decide)
    (by decide) (by decide) (by decide)

end MedalliaLauncher
